import Mathlib

/-! The sequence dashboard of `static/dashboard.js`.

A shallow embedding of the class `SequenceDashboard`. The object's fields, the parts of the page
it writes to, the timers it registers and the remote requests it dispatches are the fields of one
state record; every method is a function on that record.

* An `async` method is cut at its single `await`: the part that runs up to the `await`
  (`...Begin`, it dispatches the request) and the continuation that runs once the remote call has
  settled (`...Resume`, it receives the outcome of the call). The method itself is the two in a row.
* The outcome of a remote call is `Except JsError payload`: `.error` is a rejected promise
  (transport failure), `.ok` carries `response.data`.
* What an `async` method hands to its caller is again an `Except`: `.error` is a rejection
  (`throw`), `.ok` the returned value.
* `console.log` and `console.error` are not observable from the page and are left out.
-/

namespace SequenceDashboard

set_option maxRecDepth 20000

/-! ## Values -/

/-- Value of a `throw` or of a rejected promise; the code only reads `message`. -/
structure JsError where
  message : String
deriving DecidableEq

/-- Functions of the browser whose output depends on locale and number formatting. -/
structure Host where
  /-- `Date.prototype.toLocaleTimeString`, the date given in milliseconds. -/
  toLocaleTimeString : Nat → String
  /-- `Number.prototype.toFixed(2)`. -/
  toFixed2 : Rat → String

/-- The four values of the parameter `type` of `showNotification` that have a colour. -/
inductive Level where
  | info
  | success
  | warning
  | error
deriving DecidableEq

/-- Entry of `sequenceHistory`, the object literal built in `generateSequence`. -/
structure SequenceData where
  /-- `response.data.sequenceNumbers[0]`, `none` when that is `undefined`. -/
  sequence : Option Int
  siteId : String
  partitionId : String
  invoiceType : String
  isGapFilled : Bool
  /-- `new Date()`, in milliseconds. -/
  timestamp : Nat
  processingTime : Option Int
deriving DecidableEq

/-- Payload of `GET /api/v1/sequence/next`. -/
structure NextResponse where
  success : Bool
  sequenceNumbers : List Int
  gapFilled : Bool
  nodeId : Option String
  processingTimeMs : Option Int
  siteId : Option String
  partitionId : Option String
  invoiceType : Option String
  error : Option String
deriving DecidableEq

/-- Payload of `GET /api/v1/sequence/stats`; it becomes `this.stats`. -/
structure Stats where
  currentCounter : Option Int
  totalGenerated : Option Int
  availableGaps : Option Int
  averageLatencyMs : Option Rat
  /-- The object `sequencesBySitePartition` as its entries in enumeration order. -/
  sequencesBySitePartition : Option (List (String × Int))
deriving DecidableEq

/-- Payload of `GET /api/v1/sequence/health`. -/
structure Health where
  healthy : Bool
  currentCounter : Option Int
deriving DecidableEq

/-- Payload of `POST /api/v1/sequence/release`. -/
structure ReleaseResponse where
  success : Bool
deriving DecidableEq

/-- Payload of `POST /api/v1/sequence/reset`. -/
structure ResetResponse where
  success : Bool
  message : Option String
deriving DecidableEq

/-- Payload of `POST /api/v1/demo/<demoType>`. -/
structure DemoResult where
  name : Option String
  success : Bool
  steps : List String
  summary : Option String
deriving DecidableEq

/-- A request handed to `axios`. -/
inductive Request where
  | next (siteId partitionId invoiceType : String)
  | stats
  | health
  | release (sequenceNumber : Int) (siteId partitionId reason : String)
  | reset
  | demo (demoType : String)
deriving DecidableEq

/-- Body of a function passed to `setInterval` or `setTimeout`. -/
inductive Callback where
  /-- `this.updateStatistics()`. -/
  | updateStatistics
  /-- `this.updateHealth()`. -/
  | updateHealth
  /-- `sequenceElement.style.transform = 'scale(1)'`. -/
  | scaleBack
  /-- Outer callback of `showNotification` for the notification created as number `node`. -/
  | slideOut (node : Nat)
  /-- Inner callback of `showNotification`: removes the notification and its style. -/
  | removeNotification (node : Nat)
deriving DecidableEq

/-- A timer registration: the callback and the delay in milliseconds. -/
structure Timer where
  callback : Callback
  delay : Nat
deriving DecidableEq

/-! ## The page -/

/-- One `div.history-item` written by `updateHistoryDisplay`. -/
structure HistoryRow where
  sequence : Option Int
  gapBadge : Bool
  siteId : String
  partitionId : String
  invoiceType : String
  timeFormatted : String
  /-- `item.processingTime || 0`. -/
  processingTime : Int
deriving DecidableEq

/-- Content of the element `sequenceHistory`. -/
inductive HistoryView where
  /-- Markup of the page, not yet written by the script. -/
  | page
  /-- The text "No sequences generated yet". -/
  | noSequences
  | rows (items : List HistoryRow)
deriving DecidableEq

/-- Content of the element `sequenceDetails`. -/
inductive DetailsView where
  | page
  /-- Written by `updateLastSequence`: the three echoed identifiers, then the three texts. -/
  | generated (siteId partitionId invoiceType : Option String) (gapText : Bool)
      (nodeText : Option String) (timeText : Option Int)
  /-- The text "System reset - ready for new sequences". -/
  | systemReset
deriving DecidableEq

/-- Class and content of the element `systemHealth`. -/
inductive HealthView where
  | page
  /-- Class `health-healthy`, "System Healthy", with `health.currentCounter`. -/
  | healthy (currentCounter : Option Int)
  /-- Class `health-down`, "System Issues Detected". -/
  | issues
  /-- Class `health-down`, "Cannot Connect to System". -/
  | cannotConnect
deriving DecidableEq

/-- Content of the element `demoResult`. -/
inductive DemoView where
  | page
  /-- Spinner line "Running ... demonstration...". -/
  | running (demoType : String)
  /-- Head line with name and outcome, one line per step (`true`: class `demo-error`), summary. -/
  | result (name : Option String) (success : Bool) (steps : List (String × Bool))
      (summary : Option String)
  /-- The line "Demo Failed:" with the message of the failure. -/
  | failed (message : String)
deriving DecidableEq

/-- The `div` created by `showNotification`. -/
structure NotificationElement where
  /-- Identity of the element: its number in order of creation. -/
  node : Nat
  message : String
  type : Level
  backgroundColor : String
  /-- Name of the icon after `fa-`. -/
  icon : String
  /-- Value of `style.animation`. -/
  animation : String
deriving DecidableEq

/-- Elements of the page the dashboard reads and writes. -/
structure Dom where
  /-- `textContent` of `lastSequence`. -/
  lastSequence : String
  /-- `style.transform` of `lastSequence`. -/
  lastSequenceTransform : String
  sequenceDetails : DetailsView
  sequenceHistory : HistoryView
  /-- `style.display` of `statsLoading`. -/
  statsLoading : String
  currentCounter : String
  totalGenerated : String
  availableGaps : String
  avgLatency : String
  systemHealth : HealthView
  /-- `style.display` of `demoResult`. -/
  demoResultDisplay : String
  demoResult : DemoView
  /-- Notification elements that are children of `document.body`, in order of insertion. -/
  body : List NotificationElement
  /-- Style elements appended to `document.head` by `showNotification`, by notification number. -/
  head : List Nat
  /-- Number of notifications created so far. -/
  created : Nat
deriving DecidableEq

/-- Labels and first data set of a Chart.js chart, and how often `update('none')` ran. -/
structure Chart (α : Type) where
  labels : List String
  data : List α
  updates : Nat
deriving DecidableEq

/-- The dashboard object together with the page, the timers and the requests sent. -/
structure Dashboard where
  sequenceHistory : List SequenceData
  /-- `this.charts.sequence`. -/
  sequenceChart : Chart (Option Int)
  /-- `this.charts.distribution`. -/
  distributionChart : Chart Int
  stats : Stats
  isAutoRefreshing : Bool
  dom : Dom
  /-- Registrations made with `setInterval`, oldest first. -/
  intervals : List Timer
  /-- Registrations made with `setTimeout`, oldest first. -/
  timeouts : List Timer
  /-- Requests dispatched through `axios`, oldest first. -/
  requests : List Request
deriving DecidableEq

/-! ## JavaScript conversions used by the code -/

/-- Text of a value interpolated in a template literal: `undefined` prints as such. -/
def interpolate : Option Int → String
  | some n => toString n
  | none => "undefined"

/-- Text stored by `textContent = v`: `undefined` gives the empty text. -/
def textContent : Option Int → String
  | some n => toString n
  | none => ""

/-- The expression `s || fallback` for a string that may be absent: empty text is falsy. -/
def strOr (s : Option String) (fallback : String) : String :=
  match s with
  | some v => if v = "" then fallback else v
  | none => fallback

/-- A string kept only when it is truthy. -/
def truthyStr (s : Option String) : Option String :=
  match s with
  | some v => if v = "" then none else some v
  | none => none

/-- A number kept only when it is truthy. -/
def truthyNum (n : Option Int) : Option Int :=
  match n with
  | some v => if v = 0 then none else some v
  | none => none

/-- The expression `n || '-'` as text content. -/
def numOrDash (n : Option Int) : String :=
  match n with
  | some v => if v = 0 then "-" else toString v
  | none => "-"

/-- The method `String.prototype.includes`. -/
def includes (s pat : String) : Bool :=
  s.toList.tails.any (fun t => pat.toList.isPrefixOf t)

/-! ## Methods that do not call the remote service -/

/-- The table `colors` of `showNotification`. -/
def colors : Level → String
  | .success => "#27ae60"
  | .error => "#e74c3c"
  | .warning => "#f39c12"
  | .info => "#3498db"

/-- `showNotification(message, type)`: creates the notification and its style element, appends
both to the page and registers the timer of 3000 ms that starts the removal. -/
def showNotification (st : Dashboard) (message : String) (type : Level) : Dashboard :=
  let node := st.dom.created
  let notification : NotificationElement :=
    { node := node
      message := message
      type := type
      backgroundColor := colors type
      icon := if type = .success then "check" else if type = .error then "times" else "info"
      animation := "slideIn 0.3s ease-out" }
  { st with
    dom := { st.dom with
      head := st.dom.head ++ [node]
      body := st.dom.body ++ [notification]
      created := node + 1 }
    timeouts := st.timeouts ++ [Timer.mk (.slideOut node) 3000] }

/-- `updateHistoryDisplay()`: writes the placeholder for an empty history, else one row per
entry in stored order. -/
def updateHistoryDisplay (host : Host) (st : Dashboard) : Dashboard :=
  if st.sequenceHistory.length = 0 then
    { st with dom := { st.dom with sequenceHistory := .noSequences } }
  else
    let historyHtml : List HistoryRow := st.sequenceHistory.map fun item =>
      { sequence := item.sequence
        gapBadge := item.isGapFilled
        siteId := item.siteId
        partitionId := item.partitionId
        invoiceType := item.invoiceType
        timeFormatted := host.toLocaleTimeString item.timestamp
        processingTime := (truthyNum item.processingTime).getD 0 }
    { st with dom := { st.dom with sequenceHistory := .rows historyHtml } }

/-- `addToHistory(sequenceData)`: `unshift`, then `slice(0, 20)` when longer than 20, then the
history display is rewritten. -/
def addToHistory (host : Host) (st : Dashboard) (sequenceData : SequenceData) : Dashboard :=
  let st := { st with sequenceHistory := sequenceData :: st.sequenceHistory }
  let st :=
    if st.sequenceHistory.length > 20 then
      { st with sequenceHistory := st.sequenceHistory.take 20 }
    else st
  updateHistoryDisplay host st

/-- `updateLastSequence(response)`: shows the first sequence number and the details, scales the
number up and registers the timer of 200 ms that scales it back. -/
def updateLastSequence (st : Dashboard) (response : NextResponse) : Dashboard :=
  let sequence := response.sequenceNumbers.head?
  { st with
    dom := { st.dom with
      lastSequence := textContent sequence
      sequenceDetails := .generated response.siteId response.partitionId response.invoiceType
        response.gapFilled (truthyStr response.nodeId) (truthyNum response.processingTimeMs)
      lastSequenceTransform := "scale(1.1)" }
    timeouts := st.timeouts ++ [Timer.mk .scaleBack 200] }

/-- `updateCharts()`: for a non-empty history the timeline chart gets the formatted timestamps
and the sequence numbers of a reversed copy of the history; an empty history changes nothing. -/
def updateCharts (host : Host) (st : Dashboard) : Dashboard :=
  if st.sequenceHistory.length > 0 then
    let labels := st.sequenceHistory.reverse.map fun item => host.toLocaleTimeString item.timestamp
    let data := st.sequenceHistory.reverse.map fun item => item.sequence
    { st with
      sequenceChart := { labels := labels, data := data, updates := st.sequenceChart.updates + 1 } }
  else st

/-- `updateDistributionChart()`: keys and values of `stats.sequencesBySitePartition` when that
object is present. -/
def updateDistributionChart (st : Dashboard) : Dashboard :=
  match st.stats.sequencesBySitePartition with
  | some entries =>
    { st with
      distributionChart :=
        { labels := entries.map Prod.fst
          data := entries.map Prod.snd
          updates := st.distributionChart.updates + 1 } }
  | none => st

/-- `startAutoRefresh()`: returns at once when already refreshing, else sets the flag and
registers the two intervals. -/
def startAutoRefresh (st : Dashboard) : Dashboard :=
  if st.isAutoRefreshing then st
  else
    let st := { st with isAutoRefreshing := true }
    let st := { st with intervals := st.intervals ++ [Timer.mk .updateStatistics 3000] }
    { st with intervals := st.intervals ++ [Timer.mk .updateHealth 5000] }

/-- `initializeCharts()`: both charts are created with empty labels and data. -/
def initializeCharts (st : Dashboard) : Dashboard :=
  { st with
    sequenceChart := { labels := [], data := [], updates := 0 }
    distributionChart := { labels := [], data := [], updates := 0 } }

/-! ## Methods that call the remote service -/

/-- Part of `updateStatistics()` before the `await`: shows the loading mark, sends the request. -/
def updateStatisticsBegin (st : Dashboard) : Dashboard :=
  { st with
    dom := { st.dom with statsLoading := "inline-flex" }
    requests := st.requests ++ [.stats] }

/-- Part of `updateStatistics()` after the `await`: `try` body or `catch`, then `finally`. -/
def updateStatisticsResume (host : Host) (st : Dashboard) (response : Except JsError Stats) :
    Dashboard :=
  let st :=
    match response with
    | .ok data =>
      let st := { st with stats := data }
      let st := { st with
        dom := { st.dom with
          currentCounter := numOrDash st.stats.currentCounter
          totalGenerated := numOrDash st.stats.totalGenerated
          availableGaps := numOrDash st.stats.availableGaps
          avgLatency :=
            match st.stats.averageLatencyMs with
            | some v => if v = 0 then "-" else host.toFixed2 v
            | none => "-" } }
      updateDistributionChart st
    | .error _ => st
  { st with dom := { st.dom with statsLoading := "none" } }

/-- `updateStatistics()` with the remote call settled as `response`. -/
def updateStatistics (host : Host) (st : Dashboard) (response : Except JsError Stats) :
    Dashboard :=
  updateStatisticsResume host (updateStatisticsBegin st) response

/-- Part of `updateHealth()` before the `await`. -/
def updateHealthBegin (st : Dashboard) : Dashboard :=
  { st with requests := st.requests ++ [.health] }

/-- Part of `updateHealth()` after the `await`. -/
def updateHealthResume (st : Dashboard) (response : Except JsError Health) : Dashboard :=
  match response with
  | .ok health =>
    if health.healthy then
      { st with dom := { st.dom with systemHealth := .healthy health.currentCounter } }
    else
      { st with dom := { st.dom with systemHealth := .issues } }
  | .error _ =>
    { st with dom := { st.dom with systemHealth := .cannotConnect } }

/-- `updateHealth()` with the remote call settled as `response`. -/
def updateHealth (st : Dashboard) (response : Except JsError Health) : Dashboard :=
  updateHealthResume (updateHealthBegin st) response

/-- Part of `runDemo(demoType)` before the `await`. -/
def runDemoBegin (st : Dashboard) (demoType : String) : Dashboard :=
  { st with
    dom := { st.dom with demoResultDisplay := "block", demoResult := .running demoType }
    requests := st.requests ++ [.demo demoType] }

/-- Part of `runDemo(demoType)` after the `await`. -/
def runDemoResume (st : Dashboard) (response : Except JsError DemoResult) : Dashboard :=
  match response with
  | .ok result =>
    let steps := result.steps.map fun step =>
      (step, includes step "ERROR" || includes step "FAILED")
    { st with
      dom := { st.dom with
        demoResult := .result result.name result.success steps (truthyStr result.summary) }
      timeouts := st.timeouts ++ [Timer.mk .updateStatistics 1000] }
  | .error error =>
    { st with dom := { st.dom with demoResult := .failed error.message } }

/-- `runDemo(demoType)` with the remote call settled as `response`. -/
def runDemo (st : Dashboard) (demoType : String) (response : Except JsError DemoResult) :
    Dashboard :=
  runDemoResume (runDemoBegin st demoType) response

/-- Part of `generateSequence` before the `await`. -/
def generateSequenceBegin (st : Dashboard) (siteId partitionId invoiceType : String) :
    Dashboard :=
  { st with requests := st.requests ++ [.next siteId partitionId invoiceType] }

/-- Part of `generateSequence` after the `await`; `now` is the value of `new Date()`. The `try`
body is evaluated first, a failure of it goes through the `catch`. -/
def generateSequenceResume (host : Host) (st : Dashboard)
    (siteId partitionId invoiceType : String) (now : Nat)
    (response : Except JsError NextResponse) : Dashboard × Except JsError NextResponse :=
  let tryBody : Dashboard × Except JsError NextResponse :=
    match response with
    | .error error => (st, .error error)
    | .ok data =>
      if data.success then
        let sequence := data.sequenceNumbers.head?
        let st := updateLastSequence st data
        let st := addToHistory host st
          { sequence := sequence
            siteId := siteId
            partitionId := partitionId
            invoiceType := invoiceType
            isGapFilled := data.gapFilled
            timestamp := now
            processingTime := data.processingTimeMs }
        let st := updateCharts host st
        let st := showNotification st ("Generated sequence " ++ interpolate sequence) .success
        (st, .ok data)
      else
        (st, .error ⟨strOr data.error "Failed to generate sequence"⟩)
  match tryBody with
  | (st, .error error) =>
    (showNotification st ("Error: " ++ error.message) .error, .error error)
  | (st, .ok data) => (st, .ok data)

/-- `generateSequence(siteId, partitionId, invoiceType)` with the remote call settled as
`response`. -/
def generateSequence (host : Host) (st : Dashboard) (siteId partitionId invoiceType : String)
    (now : Nat) (response : Except JsError NextResponse) :
    Dashboard × Except JsError NextResponse :=
  generateSequenceResume host (generateSequenceBegin st siteId partitionId invoiceType)
    siteId partitionId invoiceType now response

/-- Part of `releaseSequence` before the `await`; an absent `reason` is `'manual-release'`. -/
def releaseSequenceBegin (st : Dashboard) (sequenceNumber : Int) (siteId partitionId : String)
    (reason : Option String) : Dashboard :=
  { st with
    requests := st.requests ++
      [.release sequenceNumber siteId partitionId (reason.getD "manual-release")] }

/-- Part of `releaseSequence` after the `await`. -/
def releaseSequenceResume (st : Dashboard) (sequenceNumber : Int)
    (response : Except JsError ReleaseResponse) : Dashboard × Except JsError Bool :=
  let tryBody : Dashboard × Except JsError Bool :=
    match response with
    | .error error => (st, .error error)
    | .ok data =>
      if data.success then
        let st := showNotification st ("Released sequence " ++ toString sequenceNumber) .warning
        let st := { st with timeouts := st.timeouts ++ [Timer.mk .updateStatistics 500] }
        (st, .ok true)
      else
        (st, .error ⟨"Failed to release sequence"⟩)
  match tryBody with
  | (st, .error error) =>
    (showNotification st ("Error releasing sequence: " ++ error.message) .error, .ok false)
  | (st, .ok value) => (st, .ok value)

/-- `releaseSequence(sequenceNumber, siteId, partitionId, reason)` with the remote call settled
as `response`. -/
def releaseSequence (st : Dashboard) (sequenceNumber : Int) (siteId partitionId : String)
    (reason : Option String) (response : Except JsError ReleaseResponse) :
    Dashboard × Except JsError Bool :=
  releaseSequenceResume (releaseSequenceBegin st sequenceNumber siteId partitionId reason)
    sequenceNumber response

/-- Part of `resetSystem` between the confirmation and the `await`. -/
def resetSystemBegin (st : Dashboard) : Dashboard :=
  { st with requests := st.requests ++ [.reset] }

/-- Part of `resetSystem` after the `await`. The call `this.updateStatistics()` is not awaited:
only its part before the `await` runs here. -/
def resetSystemResume (host : Host) (st : Dashboard) (response : Except JsError ResetResponse) :
    Dashboard × Except JsError (Option Bool) :=
  let tryBody : Dashboard × Except JsError (Option Bool) :=
    match response with
    | .error error => (st, .error error)
    | .ok data =>
      if data.success then
        let st := { st with sequenceHistory := [] }
        let st := updateHistoryDisplay host st
        let st := { st with dom := { st.dom with lastSequence := "-" } }
        let st := { st with dom := { st.dom with sequenceDetails := .systemReset } }
        let st := updateStatisticsBegin st
        let st := showNotification st "System reset successfully" .success
        (st, .ok (some true))
      else
        (st, .error ⟨strOr data.message "Reset failed"⟩)
  match tryBody with
  | (st, .error error) =>
    (showNotification st ("Reset failed: " ++ error.message) .error, .ok (some false))
  | (st, .ok value) => (st, .ok value)

/-- `resetSystem()`: `confirmed` is the answer to `confirm(...)`; a refusal returns `undefined`
before anything is sent. -/
def resetSystem (host : Host) (st : Dashboard) (confirmed : Bool)
    (response : Except JsError ResetResponse) : Dashboard × Except JsError (Option Bool) :=
  if !confirmed then (st, .ok none)
  else resetSystemResume host (resetSystemBegin st) response

/-- The constructor: fields, `initializeCharts()`, `startAutoRefresh()` and the part of
`loadInitialData()` that runs before its first `await`, on the page `dom`. -/
def new (dom : Dom) : Dashboard :=
  let st : Dashboard :=
    { sequenceHistory := []
      sequenceChart := { labels := [], data := [], updates := 0 }
      distributionChart := { labels := [], data := [], updates := 0 }
      stats :=
        { currentCounter := none
          totalGenerated := none
          availableGaps := none
          averageLatencyMs := none
          sequencesBySitePartition := none }
      isAutoRefreshing := false
      dom := dom
      intervals := []
      timeouts := []
      requests := [] }
  let st := initializeCharts st
  let st := startAutoRefresh st
  updateStatisticsBegin st

/-! ## Timeouts in virtual time

The callbacks passed to `setTimeout` and a clock in milliseconds. A timeout registered while the
clock reads `t` with delay `d` runs when the clock reaches `t + d`; timeouts that are due at the
same millisecond run in the order of their registration. The events of a session are the calls
of `showNotification`, whichever method makes them, and the passing of time. Intervals are left
out: `updateStatistics` and `updateHealth` write neither to the notifications nor to the
timeouts. -/

/-- Outer callback of `showNotification` for the notification `node`: sets its animation to
`slideOut` and registers the inner callback with a delay of 300 ms. -/
def slideOutCallback (st : Dashboard) (node : Nat) : Dashboard :=
  { st with
    dom := { st.dom with
      body := st.dom.body.map fun n =>
        if n.node = node then { n with animation := "slideOut 0.3s ease-in" } else n }
    timeouts := st.timeouts ++ [Timer.mk (.removeNotification node) 300] }

/-- Inner callback of `showNotification`: `document.body.removeChild(notification)`, then
`document.head.removeChild(style)`. `removeChild` throws when the node is not a child; what was
done before the throw stays. -/
def removeNotificationCallback (st : Dashboard) (node : Nat) :
    Dashboard × Except JsError Unit :=
  if st.dom.body.any (fun n => n.node = node) then
    let st := { st with
      dom := { st.dom with body := st.dom.body.filter fun n => n.node ≠ node } }
    if st.dom.head.contains node then
      ({ st with dom := { st.dom with head := st.dom.head.filter fun k => k ≠ node } }, .ok ())
    else
      (st, .error ⟨"NotFoundError"⟩)
  else
    (st, .error ⟨"NotFoundError"⟩)

/-- Callback of the timeout registered by `updateLastSequence`. -/
def scaleBackCallback (st : Dashboard) : Dashboard :=
  { st with dom := { st.dom with lastSequenceTransform := "scale(1)" } }

/-- Runs the body of a timer callback. A call `this.updateStatistics()` or `this.updateHealth()`
is not awaited, so only its part before the `await` runs inside the callback. -/
def runCallback (st : Dashboard) : Callback → Dashboard × Except JsError Unit
  | .updateStatistics => (updateStatisticsBegin st, .ok ())
  | .updateHealth => (updateHealthBegin st, .ok ())
  | .scaleBack => (scaleBackCallback st, .ok ())
  | .slideOut node => (slideOutCallback st node, .ok ())
  | .removeNotification node => removeNotificationCallback st node

/-- A timeout that is registered and has not run: its callback and the time it is due. -/
structure PendingTimeout where
  callback : Callback
  due : Nat
deriving DecidableEq

/-- The dashboard in virtual time. -/
structure Session where
  dashboard : Dashboard
  /-- Milliseconds elapsed. -/
  clock : Nat
  /-- Timeouts registered and not yet run, in order of registration. -/
  pending : List PendingTimeout
  /-- Callbacks that threw, each with the time of the throw. -/
  uncaught : List (Callback × Nat)
deriving DecidableEq

/-- A session that starts on `st` at time `clock` with no timeout pending. -/
def Session.start (st : Dashboard) (clock : Nat) : Session :=
  { dashboard := st, clock := clock, pending := [], uncaught := [] }

/-- The timeouts `after` has registered beyond those of `before`, due from `clock` on. -/
def registered (before after : Dashboard) (clock : Nat) : List PendingTimeout :=
  (after.timeouts.drop before.timeouts.length).map fun t =>
    PendingTimeout.mk t.callback (clock + t.delay)

/-- Runs the callback of the timeout `p` at the current time: the timeouts it registers become
pending, a throw is recorded. -/
def fire (s : Session) (p : PendingTimeout) : Session :=
  let r := runCallback s.dashboard p.callback
  { dashboard := r.1
    clock := s.clock
    pending := s.pending ++ registered s.dashboard r.1 s.clock
    uncaught :=
      match r.2 with
      | .ok _ => s.uncaught
      | .error _ => s.uncaught ++ [(p.callback, s.clock)] }

/-- One millisecond passes: the timeouts due by the new time run, oldest registration first. -/
def tick (s : Session) : Session :=
  let clock := s.clock + 1
  let due := s.pending.filter fun p => p.due ≤ clock
  let rest := s.pending.filter fun p => ¬ p.due ≤ clock
  due.foldl fire { s with clock := clock, pending := rest }

/-- The session after `ms` further milliseconds. -/
def advance (s : Session) (ms : Nat) : Session :=
  tick^[ms] s

/-- A call `showNotification(message, type)` at the current time. -/
def notify (s : Session) (message : String) (type : Level) : Session :=
  let st := showNotification s.dashboard message type
  { s with
    dashboard := st
    pending := s.pending ++ registered s.dashboard st s.clock }

/-- A call of `showNotification`, made `wait` milliseconds after the call before it. -/
structure Call where
  wait : Nat
  message : String
  type : Level
deriving DecidableEq

/-- The session after the calls of `calls`, each made after its wait. -/
def runCalls (s : Session) (calls : List Call) : Session :=
  calls.foldl (fun s c => notify (advance s c.wait) c.message c.type) s

/-- Time of the call number `k` of `calls` in a session started at `clock`. -/
def callTime (clock : Nat) (calls : List Call) (k : Nat) : Nat :=
  clock + ((calls.take (k + 1)).map fun c => c.wait).sum

/-- Whether the callback belongs to the notification `node`. -/
def Callback.names (callback : Callback) (node : Nat) : Bool :=
  callback = .slideOut node || callback = .removeNotification node

/-- What a session holds of one notification: its elements in the body, the number of its style
elements in the head, the pending timeouts of its callbacks and the times its callbacks threw. -/
structure NodeView where
  elements : List NotificationElement
  styles : Nat
  timers : List PendingTimeout
  errors : List Nat
deriving DecidableEq

/-- The part of the session that belongs to the notification `node`. -/
def nodeView (node : Nat) (s : Session) : NodeView :=
  { elements := s.dashboard.dom.body.filter fun n => n.node = node
    styles := s.dashboard.dom.head.count node
    timers := s.pending.filter fun p => p.callback.names node
    errors := (s.uncaught.filter fun e => e.1.names node).map Prod.snd }

/-- Nothing of the notification is in the session. -/
def NodeView.none : NodeView :=
  { elements := [], styles := 0, timers := [], errors := [] }

/-- The element `showNotification(message, type)` creates as notification number `node`. -/
def createdElement (node : Nat) (message : String) (type : Level) : NotificationElement :=
  { node := node
    message := message
    type := type
    backgroundColor := colors type
    icon := if type = .success then "check" else if type = .error then "times" else "info"
    animation := "slideIn 0.3s ease-out" }

/-- The life of a notification created at time `born`, read at time `clock`: for 3000 ms it is
shown sliding in and its outer timeout is pending, for 300 ms more it is shown sliding out and
its inner timeout is pending, from 3300 ms on nothing of it is left. -/
def lifeView (e : NotificationElement) (born clock : Nat) : NodeView :=
  if clock < born + 3000 then
    { elements := [e]
      styles := 1
      timers := [PendingTimeout.mk (.slideOut e.node) (born + 3000)]
      errors := [] }
  else if clock < born + 3000 + 300 then
    { elements := [{ e with animation := "slideOut 0.3s ease-in" }]
      styles := 1
      timers := [PendingTimeout.mk (.removeNotification e.node) (born + 3000 + 300)]
      errors := [] }
  else NodeView.none

/-- The session `s` holds the notifications of `calls`, numbered from `first` on and made in a
session started at time `start`, each at the point of its life that the clock of `s` gives, and
holds nothing of a notification with a later number. -/
def Tracks (s : Session) (first start : Nat) (calls : List Call) : Prop :=
  s.dashboard.dom.created = first + calls.length ∧
  (∀ (k : Nat) (hk : k < calls.length),
    nodeView (first + k) s =
      lifeView (createdElement (first + k) calls[k].message calls[k].type)
        (callTime start calls k) s.clock) ∧
  (∀ i : Nat, first + calls.length ≤ i → nodeView i s = NodeView.none)

/-! ## Sample values -/

/-- A host that prints a date as its number of milliseconds. -/
def sampleHost : Host :=
  { toLocaleTimeString := fun t => toString t
    toFixed2 := fun _ => "0.00" }

/-- A page on which the script has not written yet. -/
def samplePage : Dom :=
  { lastSequence := "-"
    lastSequenceTransform := ""
    sequenceDetails := .page
    sequenceHistory := .page
    statsLoading := "none"
    currentCounter := "-"
    totalGenerated := "-"
    availableGaps := "-"
    avgLatency := "-"
    systemHealth := .page
    demoResultDisplay := "none"
    demoResult := .page
    body := []
    head := []
    created := 0 }

/-- The event with sequence number `n`, created at time `n`. -/
def sampleEvent (n : Nat) : SequenceData :=
  { sequence := some n
    siteId := "S1"
    partitionId := "P1"
    invoiceType := "INV"
    isGapFilled := false
    timestamp := n
    processingTime := none }

/-- The payload of a successful generation of sequence number `n`. -/
def sampleNext (n : Int) : NextResponse :=
  { success := true
    sequenceNumbers := [n]
    gapFilled := false
    nodeId := some "node-1"
    processingTimeMs := some 3
    siteId := some "S1"
    partitionId := some "P1"
    invoiceType := some "INV"
    error := none }

/-- The dashboard after one successful generation followed by a confirmed, successful reset. -/
def afterGenerateAndReset : Dashboard :=
  let st := (generateSequence sampleHost (new samplePage) "S1" "P1" "INV" 7
    (.ok (sampleNext 1042))).1
  (resetSystem sampleHost st true (.ok { success := true, message := none })).1

/-- Two calls with the same text, 5 ms after the start and 10 ms later. -/
def sampleCalls : List Call :=
  [{ wait := 5, message := "Saved", type := .success },
   { wait := 10, message := "Saved", type := .success }]

/-- A session on a new dashboard at time 0. -/
def sampleSession : Session :=
  Session.start (new samplePage) 0

/-! ## Lemmas on single fields -/

theorem updateHistoryDisplay_sequenceHistory (host : Host) (st : Dashboard) :
    (updateHistoryDisplay host st).sequenceHistory = st.sequenceHistory := by
  unfold updateHistoryDisplay
  split <;> rfl

theorem addToHistory_sequenceHistory (host : Host) (st : Dashboard) (e : SequenceData) :
    (addToHistory host st e).sequenceHistory = (e :: st.sequenceHistory).take 20 := by
  unfold addToHistory
  simp only [updateHistoryDisplay_sequenceHistory]
  split
  · rfl
  · rename_i h
    simp only [gt_iff_lt, not_lt] at h
    exact (List.take_of_length_le h).symm

theorem take_append_take (n : Nat) (a b : List SequenceData) :
    (a ++ b.take n).take n = (a ++ b).take n := by
  rw [List.take_append_eq_append_take, List.take_append_eq_append_take, List.take_take]
  congr 2
  omega

theorem foldl_addToHistory_sequenceHistory (host : Host) (events : List SequenceData) :
    ∀ st : Dashboard, st.sequenceHistory.length ≤ 20 →
      (events.foldl (addToHistory host) st).sequenceHistory =
        (events.reverse ++ st.sequenceHistory).take 20 := by
  induction events with
  | nil =>
    intro st hst
    simpa using (List.take_of_length_le hst).symm
  | cons e es ih =>
    intro st _
    have hlen : (addToHistory host st e).sequenceHistory.length ≤ 20 := by
      rw [addToHistory_sequenceHistory, List.length_take]
      exact Nat.min_le_left _ _
    rw [List.foldl_cons, ih _ hlen, addToHistory_sequenceHistory, take_append_take]
    simp

theorem updateHistoryDisplay_frame (host : Host) (st : Dashboard) :
    ∃ view : HistoryView,
      updateHistoryDisplay host st = { st with dom := { st.dom with sequenceHistory := view } } := by
  unfold updateHistoryDisplay
  split
  · exact ⟨_, rfl⟩
  · exact ⟨_, rfl⟩

theorem addToHistory_frame (host : Host) (st : Dashboard) (e : SequenceData) :
    ∃ view : HistoryView,
      addToHistory host st e =
        { st with
          sequenceHistory := (e :: st.sequenceHistory).take 20
          dom := { st.dom with sequenceHistory := view } } := by
  have hh := addToHistory_sequenceHistory host st e
  unfold addToHistory at hh ⊢
  obtain ⟨view, hview⟩ := updateHistoryDisplay_frame host
    (if (e :: st.sequenceHistory).length > 20 then
      { st with sequenceHistory := (e :: st.sequenceHistory).take 20 }
     else { st with sequenceHistory := e :: st.sequenceHistory })
  refine ⟨view, ?_⟩
  simp only at hh ⊢
  rw [hview]
  split
  · rfl
  · rename_i hgt
    simp only [gt_iff_lt, not_lt] at hgt
    rw [List.take_of_length_le hgt]

theorem updateCharts_frame (host : Host) (st : Dashboard) :
    ∃ chart : Chart (Option Int), updateCharts host st = { st with sequenceChart := chart } := by
  unfold updateCharts
  split
  · exact ⟨_, rfl⟩
  · exact ⟨_, rfl⟩

theorem generateSequenceResume_of_success (host : Host) (st : Dashboard)
    (siteId partitionId invoiceType : String) (now : Nat) (data : NextResponse)
    (hsuccess : data.success = true) :
    ∃ (view : HistoryView) (chart : Chart (Option Int)),
      generateSequenceResume host st siteId partitionId invoiceType now (.ok data) =
        (showNotification
          { updateLastSequence st data with
            sequenceHistory :=
              ({ sequence := data.sequenceNumbers.head?
                 siteId := siteId
                 partitionId := partitionId
                 invoiceType := invoiceType
                 isGapFilled := data.gapFilled
                 timestamp := now
                 processingTime := data.processingTimeMs } :: st.sequenceHistory).take 20
            dom := { (updateLastSequence st data).dom with sequenceHistory := view }
            sequenceChart := chart }
          ("Generated sequence " ++ interpolate data.sequenceNumbers.head?) .success,
         .ok data) := by
  obtain ⟨view, hview⟩ := addToHistory_frame host (updateLastSequence st data)
    { sequence := data.sequenceNumbers.head?
      siteId := siteId
      partitionId := partitionId
      invoiceType := invoiceType
      isGapFilled := data.gapFilled
      timestamp := now
      processingTime := data.processingTimeMs }
  obtain ⟨chart, hchart⟩ := updateCharts_frame host (addToHistory host (updateLastSequence st data)
    { sequence := data.sequenceNumbers.head?
      siteId := siteId
      partitionId := partitionId
      invoiceType := invoiceType
      isGapFilled := data.gapFilled
      timestamp := now
      processingTime := data.processingTimeMs })
  refine ⟨view, chart, ?_⟩
  simp only [generateSequenceResume, hsuccess, if_true]
  rw [hchart, hview]
  rfl

theorem generateSequenceResume_of_failure (host : Host) (st : Dashboard)
    (siteId partitionId invoiceType : String) (now : Nat)
    (response : Except JsError NextResponse)
    (hfail : ∀ data, response = .ok data → data.success = false) :
    ∃ err : JsError,
      generateSequenceResume host st siteId partitionId invoiceType now response =
        (showNotification st ("Error: " ++ err.message) .error, .error err) ∧
      (∀ e, response = .error e → err = e) := by
  cases response with
  | error e =>
    exact ⟨e, rfl, fun e' h => by cases h; rfl⟩
  | ok data =>
    have hf := hfail data rfl
    refine ⟨⟨strOr data.error "Failed to generate sequence"⟩, ?_, fun e h => by cases h⟩
    simp [generateSequenceResume, hf]

theorem releaseSequenceResume_of_success (st : Dashboard) (sequenceNumber : Int)
    (data : ReleaseResponse) (hsuccess : data.success = true) :
    releaseSequenceResume st sequenceNumber (.ok data) =
      ({ showNotification st ("Released sequence " ++ toString sequenceNumber) .warning with
          timeouts :=
            (showNotification st ("Released sequence " ++ toString sequenceNumber)
              .warning).timeouts ++ [Timer.mk .updateStatistics 500] },
       .ok true) := by
  simp [releaseSequenceResume, hsuccess]

theorem releaseSequenceResume_of_failure (st : Dashboard) (sequenceNumber : Int)
    (response : Except JsError ReleaseResponse)
    (hfail : ∀ data, response = .ok data → data.success = false) :
    ∃ err : JsError,
      releaseSequenceResume st sequenceNumber response =
        (showNotification st ("Error releasing sequence: " ++ err.message) .error, .ok false) := by
  cases response with
  | error e => exact ⟨e, rfl⟩
  | ok data =>
    have hf := hfail data rfl
    exact ⟨⟨"Failed to release sequence"⟩, by simp [releaseSequenceResume, hf]⟩

theorem resetSystemResume_of_success (host : Host) (st : Dashboard) (data : ResetResponse)
    (hsuccess : data.success = true) :
    resetSystemResume host st (.ok data) =
      (showNotification
        (updateStatisticsBegin
          { st with
            sequenceHistory := []
            dom := { st.dom with
              sequenceHistory := .noSequences
              lastSequence := "-"
              sequenceDetails := .systemReset } })
        "System reset successfully" .success,
       .ok (some true)) := by
  simp [resetSystemResume, hsuccess, updateHistoryDisplay]

theorem resetSystemResume_of_failure (host : Host) (st : Dashboard)
    (response : Except JsError ResetResponse)
    (hfail : ∀ data, response = .ok data → data.success = false) :
    ∃ err : JsError,
      resetSystemResume host st response =
        (showNotification st ("Reset failed: " ++ err.message) .error, .ok (some false)) := by
  cases response with
  | error e => exact ⟨e, rfl⟩
  | ok data =>
    have hf := hfail data rfl
    exact ⟨⟨strOr data.message "Reset failed"⟩, by simp [resetSystemResume, hf]⟩

/-! ## The history buffer -/

/-- C1: pushing the events `e1 .. en` with `addToHistory`, in this order, onto a dashboard whose
history is empty leaves a history of length `min n 20`, hence of at most 20 entries, that holds
the last `min n 20` pushed events newest first. For `n = 21` the length is 20, the head is
`e21`, the history is `e21 .. e2`, and `e1` is not in it unless it was pushed again. -/
theorem addToHistory_sequence_bounded_newest_first (host : Host) (st : Dashboard)
    (events : List SequenceData) (hempty : st.sequenceHistory = []) :
    (events.foldl (addToHistory host) st).sequenceHistory.length = min events.length 20 ∧
    (events.foldl (addToHistory host) st).sequenceHistory.length ≤ 20 ∧
    (events.foldl (addToHistory host) st).sequenceHistory =
      (events.drop (events.length - min events.length 20)).reverse ∧
    (events.length = 21 →
      (events.foldl (addToHistory host) st).sequenceHistory.length = 20 ∧
      (events.foldl (addToHistory host) st).sequenceHistory.head? = events.getLast? ∧
      (events.foldl (addToHistory host) st).sequenceHistory = events.tail.reverse ∧
      ∀ e1, events.head? = some e1 → e1 ∉ events.tail →
        e1 ∉ (events.foldl (addToHistory host) st).sequenceHistory) := by
  have hst : st.sequenceHistory.length ≤ 20 := by simp [hempty]
  have hh : (events.foldl (addToHistory host) st).sequenceHistory = events.reverse.take 20 := by
    rw [foldl_addToHistory_sequenceHistory host events st hst, hempty, List.append_nil]
  have hlen : (events.foldl (addToHistory host) st).sequenceHistory.length
      = min events.length 20 := by
    rw [hh, List.length_take, List.length_reverse, Nat.min_comm]
  refine ⟨hlen, ?_, ?_, ?_⟩
  · rw [hlen]
    exact Nat.min_le_right _ _
  · rw [hh, List.take_reverse]
    congr 2
    omega
  · intro h21
    have htail : events.reverse.take 20 = events.tail.reverse := by
      cases events with
      | nil => simp at h21
      | cons e rest =>
        have hrest : rest.length = 20 := by simpa using h21
        rw [List.reverse_cons, List.take_append_of_le_length (by simp [hrest]),
          List.take_of_length_le (by simp [hrest])]
        rfl
    refine ⟨by rw [hlen, h21]; rfl, ?_, by rw [hh, htail], ?_⟩
    · rw [hh, List.head?_take, if_neg (by decide), List.head?_reverse]
    · intro e1 _ hnot
      rw [hh, htail]
      simpa using hnot

/-- C1 at the 21 events numbered 1 to 21 pushed onto a new dashboard. -/
theorem addToHistory_sequence_bounded_newest_first_witness :
    (new samplePage).sequenceHistory = [] ∧
    (((List.range 21).map fun i => sampleEvent (i + 1)).foldl (addToHistory sampleHost)
      (new samplePage)).sequenceHistory.length = 20 ∧
    (((List.range 21).map fun i => sampleEvent (i + 1)).foldl (addToHistory sampleHost)
      (new samplePage)).sequenceHistory.head? = some (sampleEvent 21) ∧
    sampleEvent 1 ∉ (((List.range 21).map fun i => sampleEvent (i + 1)).foldl
      (addToHistory sampleHost) (new samplePage)).sequenceHistory :=
  have h := (addToHistory_sequence_bounded_newest_first sampleHost (new samplePage)
    ((List.range 21).map fun i => sampleEvent (i + 1)) rfl).2.2.2 (by decide)
  ⟨rfl, h.1, h.2.1.trans (by decide), h.2.2.2 (sampleEvent 1) (by decide) (by decide)⟩

/-- C2: `addToHistory(e)` leaves the history equal to the first 20 entries of `e` followed by the
old history; so it is a prefix of that list, `e` is its head, and for an old history of at most
20 entries (all that pushes and resets produce) exactly the last entry is removed when the list
is longer than 20 and nothing is removed otherwise. -/
theorem addToHistory_prepends_and_truncates (host : Host) (st : Dashboard) (e : SequenceData) :
    (addToHistory host st e).sequenceHistory = (e :: st.sequenceHistory).take 20 ∧
    (addToHistory host st e).sequenceHistory.head? = some e ∧
    (addToHistory host st e).sequenceHistory <+: e :: st.sequenceHistory ∧
    (st.sequenceHistory.length ≤ 20 →
      (addToHistory host st e).sequenceHistory =
        if (e :: st.sequenceHistory).length > 20 then (e :: st.sequenceHistory).dropLast
        else e :: st.sequenceHistory) := by
  have hh := addToHistory_sequenceHistory host st e
  refine ⟨hh, by rw [hh]; rfl, by rw [hh]; exact List.take_prefix _ _, ?_⟩
  intro hle
  rw [hh]
  split
  · rename_i hgt
    rw [List.dropLast_eq_take]
    congr 1
    simp only [List.length_cons] at hgt ⊢
    omega
  · rename_i hgt
    exact List.take_of_length_le (by omega)

/-- C2 at a full history: of the 21 entries the last one, and only it, is removed. -/
theorem addToHistory_prepends_and_truncates_witness :
    (((List.range 20).map sampleEvent).foldl (addToHistory sampleHost)
      (new samplePage)).sequenceHistory.length ≤ 20 ∧
    (addToHistory sampleHost (((List.range 20).map sampleEvent).foldl (addToHistory sampleHost)
      (new samplePage)) (sampleEvent 20)).sequenceHistory =
      (List.range 20).reverse.map fun i => sampleEvent (i + 1) :=
  ⟨by decide,
    ((addToHistory_prepends_and_truncates sampleHost (((List.range 20).map sampleEvent).foldl
      (addToHistory sampleHost) (new samplePage)) (sampleEvent 20)).2.2.2 (by decide)).trans
      (by decide)⟩

/-! ## The timeline chart -/

/-- C3, the claim fails: after one generation and a successful reset the history is empty while
the timeline chart still holds the one label and the one value; `updateCharts` leaves them. -/
theorem updateCharts_empty_history_keeps_series :
    afterGenerateAndReset.sequenceHistory = [] ∧
    (updateCharts sampleHost afterGenerateAndReset).sequenceHistory.length = 0 ∧
    (updateCharts sampleHost afterGenerateAndReset).sequenceChart.labels = ["7"] ∧
    (updateCharts sampleHost afterGenerateAndReset).sequenceChart.data = [some 1042] ∧
    (updateCharts sampleHost afterGenerateAndReset).sequenceChart.labels.length ≠
      (updateCharts sampleHost afterGenerateAndReset).sequenceHistory.length ∧
    (updateCharts sampleHost afterGenerateAndReset).sequenceChart.data.length ≠
      (updateCharts sampleHost afterGenerateAndReset).sequenceHistory.length := by
  decide

/-- C3 as amended: for a non-empty history `updateCharts` leaves labels and data of the
timeline chart with as many entries as the history has, whatever the chart held before; for an
empty history it changes nothing, so the series is empty only if it was empty before, as it is
on a new dashboard. -/
theorem updateCharts_series_length (host : Host) (st : Dashboard) :
    (st.sequenceHistory ≠ [] →
      (updateCharts host st).sequenceChart.labels.length =
        (updateCharts host st).sequenceHistory.length ∧
      (updateCharts host st).sequenceChart.data.length =
        (updateCharts host st).sequenceHistory.length) ∧
    (st.sequenceHistory = [] →
      updateCharts host st = st ∧
      (st.sequenceChart.labels = [] → st.sequenceChart.data = [] →
        (updateCharts host st).sequenceChart.labels = [] ∧
        (updateCharts host st).sequenceChart.data = [])) := by
  constructor
  · intro hne
    have hpos : st.sequenceHistory.length > 0 := List.length_pos.mpr hne
    simp [updateCharts, hpos]
  · intro hnil
    have hst : updateCharts host st = st := by simp [updateCharts, hnil]
    refine ⟨hst, fun hl hd => ?_⟩
    rw [hst]
    exact ⟨hl, hd⟩

/-- C3 as amended, at a history of one entry over a chart that held three points, and at the
empty history of a new dashboard. -/
theorem updateCharts_series_length_witness :
    ((addToHistory sampleHost
        { new samplePage with
          sequenceChart := { labels := ["a", "b", "c"], data := [none, none, none], updates := 3 } }
        (sampleEvent 5)).sequenceHistory ≠ [] ∧
      (updateCharts sampleHost (addToHistory sampleHost
        { new samplePage with
          sequenceChart := { labels := ["a", "b", "c"], data := [none, none, none], updates := 3 } }
        (sampleEvent 5))).sequenceChart.labels.length = 1) ∧
    ((new samplePage).sequenceHistory = [] ∧
      (updateCharts sampleHost (new samplePage)).sequenceChart.labels = []) :=
  ⟨⟨by decide,
    ((updateCharts_series_length sampleHost (addToHistory sampleHost
        { new samplePage with
          sequenceChart := { labels := ["a", "b", "c"], data := [none, none, none], updates := 3 } }
        (sampleEvent 5))).1 (by decide)).1.trans (by decide)⟩,
   ⟨rfl, (((updateCharts_series_length sampleHost (new samplePage)).2 rfl).2 rfl rfl).1⟩⟩

/-- C4: for a non-empty history `updateCharts` sets the data of the timeline chart to the
sequence numbers of the history read oldest first and the labels to the formatted timestamps of
the same entries in the same order, so that label and value at each position come from one
entry; the history itself keeps its entries and their order. -/
theorem updateCharts_projects_oldest_first (host : Host) (st : Dashboard)
    (hne : st.sequenceHistory ≠ []) :
    (updateCharts host st).sequenceChart.data =
      st.sequenceHistory.reverse.map (fun item => item.sequence) ∧
    (updateCharts host st).sequenceChart.labels =
      st.sequenceHistory.reverse.map (fun item => host.toLocaleTimeString item.timestamp) ∧
    (∀ i : Nat,
      (updateCharts host st).sequenceChart.data[i]? =
        (st.sequenceHistory.reverse[i]?).map (fun item => item.sequence) ∧
      (updateCharts host st).sequenceChart.labels[i]? =
        (st.sequenceHistory.reverse[i]?).map
          (fun item => host.toLocaleTimeString item.timestamp)) ∧
    (updateCharts host st).sequenceHistory = st.sequenceHistory := by
  have hpos : st.sequenceHistory.length > 0 := List.length_pos.mpr hne
  have hd : (updateCharts host st).sequenceChart.data =
      st.sequenceHistory.reverse.map (fun item => item.sequence) := by
    simp [updateCharts, hpos]
  have hl : (updateCharts host st).sequenceChart.labels =
      st.sequenceHistory.reverse.map (fun item => host.toLocaleTimeString item.timestamp) := by
    simp [updateCharts, hpos]
  refine ⟨hd, hl, fun i => ?_, ?_⟩
  · rw [hd, hl, List.getElem?_map, List.getElem?_map]
    exact ⟨rfl, rfl⟩
  · simp [updateCharts, hpos]

/-- C4 at a history of three entries, 3 the newest: the chart reads 1, 2, 3. -/
theorem updateCharts_projects_oldest_first_witness :
    ([sampleEvent 1, sampleEvent 2, sampleEvent 3].foldl (addToHistory sampleHost)
      (new samplePage)).sequenceHistory ≠ [] ∧
    (updateCharts sampleHost ([sampleEvent 1, sampleEvent 2, sampleEvent 3].foldl
      (addToHistory sampleHost) (new samplePage))).sequenceChart.data =
      [some 1, some 2, some 3] ∧
    (updateCharts sampleHost ([sampleEvent 1, sampleEvent 2, sampleEvent 3].foldl
      (addToHistory sampleHost) (new samplePage))).sequenceChart.labels = ["1", "2", "3"] ∧
    (updateCharts sampleHost ([sampleEvent 1, sampleEvent 2, sampleEvent 3].foldl
      (addToHistory sampleHost) (new samplePage))).sequenceHistory =
      [sampleEvent 3, sampleEvent 2, sampleEvent 1] :=
  have h := updateCharts_projects_oldest_first sampleHost
    ([sampleEvent 1, sampleEvent 2, sampleEvent 3].foldl (addToHistory sampleHost)
      (new samplePage)) (by decide)
  ⟨by decide, h.1.trans (by decide), h.2.1.trans (by decide), h.2.2.2.trans (by decide)⟩


/-! ## The user actions -/

/-- C5: when the remote call answers with `success` true, first sequence number `s` and
`gapFilled = g`, `generateSequence` leaves a history whose first entry carries `s`, `g` and
the caller's `siteId`, `partitionId` and `invoiceType`, appends exactly one notification, of
level success, and returns the payload as it came. -/
theorem generateSequence_success_pushes_and_returns (host : Host) (st : Dashboard)
    (siteId partitionId invoiceType : String) (now : Nat) (data : NextResponse)
    (s : Int) (rest : List Int)
    (hsuccess : data.success = true) (hseq : data.sequenceNumbers = s :: rest) :
    (generateSequence host st siteId partitionId invoiceType now (.ok data)).1.sequenceHistory.head?
      = some
        { sequence := some s
          siteId := siteId
          partitionId := partitionId
          invoiceType := invoiceType
          isGapFilled := data.gapFilled
          timestamp := now
          processingTime := data.processingTimeMs } ∧
    (∃ n : NotificationElement,
      (generateSequence host st siteId partitionId invoiceType now (.ok data)).1.dom.body
        = st.dom.body ++ [n] ∧
      n.type = .success ∧ n.message = "Generated sequence " ++ toString s) ∧
    (generateSequence host st siteId partitionId invoiceType now (.ok data)).1.dom.created
      = st.dom.created + 1 ∧
    (generateSequence host st siteId partitionId invoiceType now (.ok data)).2 = .ok data := by
  obtain ⟨view, chart, h⟩ := generateSequenceResume_of_success host
    (generateSequenceBegin st siteId partitionId invoiceType) siteId partitionId invoiceType now
    data hsuccess
  unfold generateSequence
  rw [h, hseq]
  exact ⟨rfl, ⟨_, rfl, rfl, rfl⟩, rfl, rfl⟩

/-- C5 at the scenario `generate("S1", "P1", "INV")` answered with `sequenceNumbers: [1042]` and
`gapFilled: false`. -/
theorem generateSequence_success_pushes_and_returns_witness :
    (sampleNext 1042).success = true ∧ (sampleNext 1042).sequenceNumbers = [1042] ∧
    ((generateSequence sampleHost (new samplePage) "S1" "P1" "INV" 7
      (.ok (sampleNext 1042))).1.sequenceHistory.head?.map fun e =>
        (e.sequence, e.isGapFilled, e.siteId, e.partitionId, e.invoiceType))
      = some (some 1042, false, "S1", "P1", "INV") ∧
    (generateSequence sampleHost (new samplePage) "S1" "P1" "INV" 7
      (.ok (sampleNext 1042))).2 = .ok (sampleNext 1042) :=
  have h := generateSequence_success_pushes_and_returns sampleHost (new samplePage) "S1" "P1"
    "INV" 7 (sampleNext 1042) 1042 [] rfl rfl
  ⟨rfl, rfl, by rw [h.1]; rfl, h.2.2.2⟩

/-- C6: when the remote call of `generateSequence` is rejected, or answers with `success`
false, the history is the one from before the call, exactly one notification is appended, of
level error and carrying the message of the failure, and the method rejects with that failure
(for a rejected call: the very failure of the call) instead of returning a value. -/
theorem generateSequence_failure_rethrows (host : Host) (st : Dashboard)
    (siteId partitionId invoiceType : String) (now : Nat)
    (response : Except JsError NextResponse)
    (hfail : ∀ data, response = .ok data → data.success = false) :
    (generateSequence host st siteId partitionId invoiceType now response).1.sequenceHistory
      = st.sequenceHistory ∧
    (∃ err : JsError,
      (generateSequence host st siteId partitionId invoiceType now response).2 = .error err ∧
      (∀ e, response = .error e → err = e) ∧
      ∃ n : NotificationElement,
        (generateSequence host st siteId partitionId invoiceType now response).1.dom.body
          = st.dom.body ++ [n] ∧
        n.type = .error ∧ n.message = "Error: " ++ err.message) ∧
    (generateSequence host st siteId partitionId invoiceType now response).1.dom.created
      = st.dom.created + 1 := by
  obtain ⟨err, h, hsame⟩ := generateSequenceResume_of_failure host
    (generateSequenceBegin st siteId partitionId invoiceType) siteId partitionId invoiceType now
    response hfail
  unfold generateSequence
  rw [h]
  exact ⟨rfl, ⟨err, rfl, hsame, _, rfl, rfl, rfl⟩, rfl⟩

/-- C6 at a transport failure and at an answer with `success: false`, on a dashboard that holds
one entry. -/
theorem generateSequence_failure_rethrows_witness :
    ((generateSequence sampleHost (addToHistory sampleHost (new samplePage) (sampleEvent 1))
        "S1" "P1" "INV" 7 (.error ⟨"Network Error"⟩)).1.sequenceHistory = [sampleEvent 1] ∧
      (generateSequence sampleHost (addToHistory sampleHost (new samplePage) (sampleEvent 1))
        "S1" "P1" "INV" 7 (.error ⟨"Network Error"⟩)).2 = .error ⟨"Network Error"⟩) ∧
    (generateSequence sampleHost (addToHistory sampleHost (new samplePage) (sampleEvent 1))
        "S1" "P1" "INV" 7
        (.ok { sampleNext 5 with success := false })).1.sequenceHistory = [sampleEvent 1] :=
  ⟨⟨(generateSequence_failure_rethrows sampleHost
        (addToHistory sampleHost (new samplePage) (sampleEvent 1)) "S1" "P1" "INV" 7
        (.error ⟨"Network Error"⟩) (fun _ h => Except.noConfusion h)).1.trans (by decide),
    rfl⟩,
   (generateSequence_failure_rethrows sampleHost
        (addToHistory sampleHost (new samplePage) (sampleEvent 1)) "S1" "P1" "INV" 7
        (.ok { sampleNext 5 with success := false })
        (fun _ h => by cases h; rfl)).1.trans (by decide)⟩

/-- C7: `releaseSequence` always resolves to a boolean and never rejects. The boolean is true
exactly when the remote call answered with `success` true, and then exactly one notification is
appended, of level warning; otherwise it is false and exactly one notification is appended, of
level error. The history is unchanged in both cases. -/
theorem releaseSequence_never_throws (st : Dashboard) (sequenceNumber : Int)
    (siteId partitionId : String) (reason : Option String)
    (response : Except JsError ReleaseResponse) :
    (∃ b : Bool,
      (releaseSequence st sequenceNumber siteId partitionId reason response).2 = .ok b ∧
      (b = true ↔ ∃ data, response = .ok data ∧ data.success = true) ∧
      ∃ n : NotificationElement,
        (releaseSequence st sequenceNumber siteId partitionId reason response).1.dom.body
          = st.dom.body ++ [n] ∧
        n.type = (if b then Level.warning else Level.error)) ∧
    (releaseSequence st sequenceNumber siteId partitionId reason response).1.dom.created
      = st.dom.created + 1 ∧
    (releaseSequence st sequenceNumber siteId partitionId reason response).1.sequenceHistory
      = st.sequenceHistory := by
  by_cases hok : ∃ data, response = .ok data ∧ data.success = true
  · obtain ⟨data, rfl, hsuccess⟩ := hok
    unfold releaseSequence
    rw [releaseSequenceResume_of_success _ _ _ hsuccess]
    exact ⟨⟨true, rfl, ⟨fun _ => ⟨data, rfl, hsuccess⟩, fun _ => rfl⟩, _, rfl, rfl⟩, rfl, rfl⟩
  · have hfail : ∀ data, response = .ok data → data.success = false := by
      intro data hdata
      cases hs : data.success with
      | false => rfl
      | true => exact absurd ⟨data, hdata, hs⟩ hok
    obtain ⟨err, h⟩ := releaseSequenceResume_of_failure
      (releaseSequenceBegin st sequenceNumber siteId partitionId reason) sequenceNumber response
      hfail
    unfold releaseSequence
    rw [h]
    exact ⟨⟨false, rfl, ⟨fun hb => Bool.noConfusion hb, fun hex => absurd hex hok⟩, _, rfl, rfl⟩,
      rfl, rfl⟩

/-- C7 at the scenario `release(1042, "S1", "P1", "manual-release")` with a transport failure:
the method resolves to false, one error notification is appended, the history is unchanged. -/
theorem releaseSequence_never_throws_witness :
    (releaseSequence (addToHistory sampleHost (new samplePage) (sampleEvent 1042)) 1042 "S1" "P1"
      (some "manual-release") (.error ⟨"Network Error"⟩)).2 = .ok false ∧
    (releaseSequence (addToHistory sampleHost (new samplePage) (sampleEvent 1042)) 1042 "S1" "P1"
      (some "manual-release") (.error ⟨"Network Error"⟩)).1.sequenceHistory
      = [sampleEvent 1042] :=
  ⟨rfl, (releaseSequence_never_throws (addToHistory sampleHost (new samplePage)
      (sampleEvent 1042)) 1042 "S1" "P1" (some "manual-release")
      (.error ⟨"Network Error"⟩)).2.2.trans (by decide)⟩

/-- C8: `resetSystem` empties the history, shows the placeholder `-` as last sequence and
dispatches the statistics request exactly when the user confirmed and the remote call answered
with `success` true. When the user declines, nothing is dispatched and nothing changes. When the
call is rejected or answers with `success` false, history and last-sequence display are as
before, no statistics request is dispatched and one error notification is appended. -/
theorem resetSystem_clears_only_on_success (host : Host) (st : Dashboard) (confirmed : Bool)
    (response : Except JsError ResetResponse) :
    (confirmed = true → (∃ data, response = .ok data ∧ data.success = true) →
      (resetSystem host st confirmed response).1.sequenceHistory = [] ∧
      (resetSystem host st confirmed response).1.sequenceHistory.length = 0 ∧
      (resetSystem host st confirmed response).1.dom.lastSequence = "-" ∧
      (resetSystem host st confirmed response).1.requests = st.requests ++ [.reset, .stats] ∧
      (resetSystem host st confirmed response).2 = .ok (some true)) ∧
    (confirmed = false →
      (resetSystem host st confirmed response).1 = st ∧
      (resetSystem host st confirmed response).1.requests = st.requests ∧
      (resetSystem host st confirmed response).2 = .ok none) ∧
    (confirmed = true → (∀ data, response = .ok data → data.success = false) →
      (resetSystem host st confirmed response).1.sequenceHistory = st.sequenceHistory ∧
      (resetSystem host st confirmed response).1.dom.lastSequence = st.dom.lastSequence ∧
      (resetSystem host st confirmed response).1.requests = st.requests ++ [.reset] ∧
      (∃ n : NotificationElement,
        (resetSystem host st confirmed response).1.dom.body = st.dom.body ++ [n] ∧
        n.type = .error) ∧
      (resetSystem host st confirmed response).2 = .ok (some false)) := by
  refine ⟨?_, ?_, ?_⟩
  · rintro rfl ⟨data, rfl, hsuccess⟩
    simp only [resetSystem, Bool.not_true, Bool.false_eq_true, if_false]
    rw [resetSystemResume_of_success host _ data hsuccess]
    refine ⟨rfl, rfl, rfl, ?_, rfl⟩
    simp [showNotification, updateStatisticsBegin, resetSystemBegin]
  · rintro rfl
    exact ⟨rfl, rfl, rfl⟩
  · rintro rfl hfail
    obtain ⟨err, h⟩ := resetSystemResume_of_failure host (resetSystemBegin st) response hfail
    simp only [resetSystem, Bool.not_true, Bool.false_eq_true, if_false]
    rw [h]
    exact ⟨rfl, rfl, rfl, ⟨_, rfl, rfl⟩, rfl⟩

/-- C8 on a dashboard that holds one generated entry: a confirmed successful reset, a declined
one, and a confirmed one whose call is rejected. -/
theorem resetSystem_clears_only_on_success_witness :
    ((resetSystem sampleHost (generateSequence sampleHost (new samplePage) "S1" "P1" "INV" 7
        (.ok (sampleNext 1042))).1 true (.ok ⟨true, none⟩)).1.sequenceHistory = [] ∧
      (resetSystem sampleHost (generateSequence sampleHost (new samplePage) "S1" "P1" "INV" 7
        (.ok (sampleNext 1042))).1 true (.ok ⟨true, none⟩)).1.dom.lastSequence = "-") ∧
    (resetSystem sampleHost (generateSequence sampleHost (new samplePage) "S1" "P1" "INV" 7
        (.ok (sampleNext 1042))).1 false (.ok ⟨true, none⟩)).1.requests
      = [.stats, .next "S1" "P1" "INV"] ∧
    ((resetSystem sampleHost (generateSequence sampleHost (new samplePage) "S1" "P1" "INV" 7
        (.ok (sampleNext 1042))).1 true (.error ⟨"Network Error"⟩)).1.sequenceHistory.length
        = 1 ∧
      (resetSystem sampleHost (generateSequence sampleHost (new samplePage) "S1" "P1" "INV" 7
        (.ok (sampleNext 1042))).1 true (.error ⟨"Network Error"⟩)).1.dom.lastSequence
        = "1042") :=
  ⟨⟨((resetSystem_clears_only_on_success sampleHost (generateSequence sampleHost
        (new samplePage) "S1" "P1" "INV" 7 (.ok (sampleNext 1042))).1 true
        (.ok ⟨true, none⟩)).1 rfl ⟨_, rfl, rfl⟩).1,
     ((resetSystem_clears_only_on_success sampleHost (generateSequence sampleHost
        (new samplePage) "S1" "P1" "INV" 7 (.ok (sampleNext 1042))).1 true
        (.ok ⟨true, none⟩)).1 rfl ⟨_, rfl, rfl⟩).2.2.1⟩,
   (((resetSystem_clears_only_on_success sampleHost (generateSequence sampleHost
        (new samplePage) "S1" "P1" "INV" 7 (.ok (sampleNext 1042))).1 false
        (.ok ⟨true, none⟩)).2.1 rfl).2.1).trans (by decide),
   ⟨(congrArg List.length ((resetSystem_clears_only_on_success sampleHost (generateSequence
        sampleHost (new samplePage) "S1" "P1" "INV" 7 (.ok (sampleNext 1042))).1 true
        (.error ⟨"Network Error"⟩)).2.2 rfl (fun _ h => Except.noConfusion h)).1).trans
        (by decide),
    (((resetSystem_clears_only_on_success sampleHost (generateSequence sampleHost
        (new samplePage) "S1" "P1" "INV" 7 (.ok (sampleNext 1042))).1 true
        (.error ⟨"Network Error"⟩)).2.2 rfl (fun _ h => Except.noConfusion h)).2.1).trans
        (by decide)⟩⟩

/-! ## Failure paths and notifications -/

/-- C9, the claim fails: on a new dashboard a rejected remote call of `updateStatistics`, of
`updateHealth` and of `runDemo` leaves the page without any notification; `showNotification`
has not run at all. -/
theorem polling_and_demo_failures_emit_no_notification :
    ((updateStatistics sampleHost (new samplePage) (.error ⟨"Network Error"⟩)).dom.body = [] ∧
      (updateStatistics sampleHost (new samplePage) (.error ⟨"Network Error"⟩)).dom.created
        = 0) ∧
    ((updateHealth (new samplePage) (.error ⟨"Network Error"⟩)).dom.body = [] ∧
      (updateHealth (new samplePage) (.error ⟨"Network Error"⟩)).dom.created = 0) ∧
    ((runDemo (new samplePage) "failover" (.error ⟨"Network Error"⟩)).dom.body = [] ∧
      (runDemo (new samplePage) "failover" (.error ⟨"Network Error"⟩)).dom.created = 0) ∧
    ¬ ∃ n ∈ (updateStatistics sampleHost (new samplePage) (.error ⟨"Network Error"⟩)).dom.body,
      n.type = Level.error := by
  refine ⟨⟨rfl, rfl⟩, ⟨rfl, rfl⟩, ⟨rfl, rfl⟩, ?_⟩
  rintro ⟨n, hn, _⟩
  have hbody : (updateStatistics sampleHost (new samplePage)
      (.error ⟨"Network Error"⟩)).dom.body = [] := rfl
  rw [hbody] at hn
  cases hn

/-- C9 as amended: every failure path of `generateSequence`, `releaseSequence` and
`resetSystem` (remote call rejected, or answered with `success` false) appends exactly one
notification, of level error. A rejected remote call of `runDemo`, `updateStatistics` or
`updateHealth` appends no notification: `runDemo` writes the line "Demo Failed" with the
message, `updateHealth` shows "Cannot Connect to System", `updateStatistics` keeps the
statistics it had and hides the loading mark. -/
theorem failure_paths_and_notifications (host : Host) (st : Dashboard) :
    (∀ (siteId partitionId invoiceType : String) (now : Nat)
        (response : Except JsError NextResponse),
      (∀ data, response = .ok data → data.success = false) →
      ∃ n : NotificationElement,
        (generateSequence host st siteId partitionId invoiceType now response).1.dom.body
          = st.dom.body ++ [n] ∧ n.type = .error) ∧
    (∀ (sequenceNumber : Int) (siteId partitionId : String) (reason : Option String)
        (response : Except JsError ReleaseResponse),
      (∀ data, response = .ok data → data.success = false) →
      ∃ n : NotificationElement,
        (releaseSequence st sequenceNumber siteId partitionId reason response).1.dom.body
          = st.dom.body ++ [n] ∧ n.type = .error) ∧
    (∀ response : Except JsError ResetResponse,
      (∀ data, response = .ok data → data.success = false) →
      ∃ n : NotificationElement,
        (resetSystem host st true response).1.dom.body = st.dom.body ++ [n] ∧
        n.type = .error) ∧
    (∀ (demoType : String) (e : JsError),
      (runDemo st demoType (.error e)).dom.body = st.dom.body ∧
      (runDemo st demoType (.error e)).dom.created = st.dom.created ∧
      (runDemo st demoType (.error e)).dom.demoResult = .failed e.message) ∧
    (∀ e : JsError,
      (updateStatistics host st (.error e)).dom.body = st.dom.body ∧
      (updateStatistics host st (.error e)).dom.created = st.dom.created ∧
      (updateStatistics host st (.error e)).stats = st.stats ∧
      (updateStatistics host st (.error e)).dom.statsLoading = "none") ∧
    (∀ e : JsError,
      (updateHealth st (.error e)).dom.body = st.dom.body ∧
      (updateHealth st (.error e)).dom.created = st.dom.created ∧
      (updateHealth st (.error e)).dom.systemHealth = .cannotConnect) := by
  refine ⟨?_, ?_, ?_, fun _ _ => ⟨rfl, rfl, rfl⟩, fun _ => ⟨rfl, rfl, rfl, rfl⟩,
    fun _ => ⟨rfl, rfl, rfl⟩⟩
  · intro siteId partitionId invoiceType now response hfail
    obtain ⟨err, h, _⟩ := generateSequenceResume_of_failure host
      (generateSequenceBegin st siteId partitionId invoiceType) siteId partitionId invoiceType
      now response hfail
    unfold generateSequence
    rw [h]
    exact ⟨_, rfl, rfl⟩
  · intro sequenceNumber siteId partitionId reason response hfail
    obtain ⟨err, h⟩ := releaseSequenceResume_of_failure
      (releaseSequenceBegin st sequenceNumber siteId partitionId reason) sequenceNumber response
      hfail
    unfold releaseSequence
    rw [h]
    exact ⟨_, rfl, rfl⟩
  · intro response hfail
    obtain ⟨err, h⟩ := resetSystemResume_of_failure host (resetSystemBegin st) response hfail
    simp only [resetSystem, Bool.not_true, Bool.false_eq_true, if_false]
    rw [h]
    exact ⟨_, rfl, rfl⟩

/-- C9 as amended, at a release whose call is rejected on a new dashboard: one notification is
appended to the page, of level error. -/
theorem failure_paths_and_notifications_witness :
    ∃ n : NotificationElement,
      (releaseSequence (new samplePage) 1042 "S1" "P1" none
        (.error ⟨"Network Error"⟩)).1.dom.body = (new samplePage).dom.body ++ [n] ∧
      n.type = .error :=
  (failure_paths_and_notifications sampleHost (new samplePage)).2.1 1042 "S1" "P1" none
    (.error ⟨"Network Error"⟩) (fun _ h => Except.noConfusion h)

/-! ## The refresh timers -/

/-- C10: on a dashboard that is not refreshing, `startAutoRefresh` registers exactly two
intervals, statistics at 3000 ms and health at 5000 ms, sets `isAutoRefreshing` and changes
nothing else; on a dashboard that is refreshing it changes nothing. So a second call in a row is
a no-op, and after `n ≥ 1` calls on a dashboard without timers and not refreshing exactly those
two intervals exist. The constructor makes the first call: the new dashboard has the two
intervals and any number of further calls leaves it as it is. -/
theorem startAutoRefresh_idempotent (st : Dashboard) :
    (st.isAutoRefreshing = false →
      startAutoRefresh st =
        { st with
          isAutoRefreshing := true
          intervals := st.intervals ++
            [Timer.mk .updateStatistics 3000, Timer.mk .updateHealth 5000] }) ∧
    (st.isAutoRefreshing = true → startAutoRefresh st = st) ∧
    startAutoRefresh (startAutoRefresh st) = startAutoRefresh st ∧
    (∀ n : Nat, 1 ≤ n → st.isAutoRefreshing = false → st.intervals = [] →
      (startAutoRefresh^[n] st).intervals =
        [Timer.mk .updateStatistics 3000, Timer.mk .updateHealth 5000] ∧
      (startAutoRefresh^[n] st).intervals.length = 2 ∧
      (startAutoRefresh^[n] st).isAutoRefreshing = true) ∧
    (∀ (dom : Dom) (n : Nat),
      (new dom).intervals = [Timer.mk .updateStatistics 3000, Timer.mk .updateHealth 5000] ∧
      (new dom).isAutoRefreshing = true ∧
      startAutoRefresh^[n] (new dom) = new dom) := by
  have hoff : ∀ t : Dashboard, t.isAutoRefreshing = false →
      startAutoRefresh t =
        { t with
          isAutoRefreshing := true
          intervals := t.intervals ++
            [Timer.mk .updateStatistics 3000, Timer.mk .updateHealth 5000] } := by
    intro t ht
    simp [startAutoRefresh, ht]
  have hon : ∀ t : Dashboard, t.isAutoRefreshing = true → startAutoRefresh t = t := by
    intro t ht
    simp [startAutoRefresh, ht]
  have hflag : ∀ t : Dashboard, (startAutoRefresh t).isAutoRefreshing = true := by
    intro t
    cases ht : t.isAutoRefreshing with
    | false => rw [hoff t ht]
    | true => rw [hon t ht]; exact ht
  have hidem : ∀ t : Dashboard, startAutoRefresh (startAutoRefresh t) = startAutoRefresh t :=
    fun t => hon _ (hflag t)
  have hiter : ∀ (n : Nat) (t : Dashboard),
      startAutoRefresh^[n + 1] t = startAutoRefresh t := by
    intro n t
    rw [Function.iterate_succ_apply]
    exact Function.iterate_fixed (hidem t) n
  refine ⟨hoff st, hon st, hidem st, ?_, ?_⟩
  · intro n hn hst hint
    obtain ⟨m, rfl⟩ : ∃ m, n = m + 1 := ⟨n - 1, by omega⟩
    rw [hiter m st, hoff st hst, hint]
    exact ⟨rfl, rfl, rfl⟩
  · intro dom n
    exact ⟨rfl, rfl, Function.iterate_fixed (hon _ rfl) n⟩

/-- C10 at three calls in a row on a page without timers. -/
theorem startAutoRefresh_idempotent_witness :
    (startAutoRefresh^[3] { new samplePage with isAutoRefreshing := false, intervals := [] }).intervals
      = [Timer.mk .updateStatistics 3000, Timer.mk .updateHealth 5000] :=
  ((startAutoRefresh_idempotent
    { new samplePage with isAutoRefreshing := false, intervals := [] }).2.2.2.1 3 (by decide)
    rfl rfl).1

/-! ## Notifications in virtual time -/

theorem registered_self (st : Dashboard) (clock : Nat) : registered st st clock = [] := by
  simp [registered]

theorem names_slideOut (j i : Nat) : (Callback.slideOut j).names i = decide (j = i) := by
  simp [Callback.names]

theorem names_removeNotification (j i : Nat) :
    (Callback.removeNotification j).names i = decide (j = i) := by
  simp [Callback.names]

theorem filter_node_map_animation (body : List NotificationElement) (j i : Nat) (a : String) :
    (body.map fun n => if n.node = j then { n with animation := a } else n).filter
        (fun n => n.node = i) =
      (body.filter fun n => n.node = i).map
        (fun n => if n.node = j then { n with animation := a } else n) := by
  rw [List.filter_map]
  congr 1
  apply List.filter_congr
  intro n _
  simp only [Function.comp]
  split <;> rfl

theorem fire_clock (s : Session) (p : PendingTimeout) : (fire s p).clock = s.clock := rfl

theorem fire_created (s : Session) (p : PendingTimeout) :
    (fire s p).dashboard.dom.created = s.dashboard.dom.created := by
  cases p with
  | mk callback due =>
    cases callback with
    | removeNotification node =>
      simp only [fire, runCallback, removeNotificationCallback]
      split
      · split <;> rfl
      · rfl
    | _ => rfl

theorem map_animation_of_ne (l : List NotificationElement) (j i : Nat) (a : String)
    (hne : j ≠ i) (hl : ∀ n ∈ l, n.node = i) :
    (l.map fun n => if n.node = j then { n with animation := a } else n) = l := by
  induction l with
  | nil => rfl
  | cons n rest ih =>
    have hn : n.node = i := hl n (List.mem_cons_self _ _)
    have hnj : ¬ n.node = j := fun h => hne (h.symm.trans hn)
    rw [List.map_cons, if_neg hnj, ih fun m hm => hl m (List.mem_cons_of_mem _ hm)]

theorem filter_node_filter_ne (body : List NotificationElement) (j i : Nat) (hne : j ≠ i) :
    (body.filter fun n => n.node ≠ j).filter (fun n => n.node = i) =
      body.filter fun n => n.node = i := by
  rw [List.filter_filter]
  apply List.filter_congr
  intro n _
  by_cases hi : n.node = i
  · have hnj : ¬ n.node = j := fun h => hne (h.symm.trans hi)
    subst hi
    simp [hnj]
  · simp [hi]

theorem count_filter_ne (head : List Nat) (j i : Nat) (hne : j ≠ i) :
    (head.filter fun k => k ≠ j).count i = head.count i := by
  apply List.count_filter
  simpa using fun h : i = j => hne h.symm

theorem nodeView_fire_other (i : Nat) (s : Session) (p : PendingTimeout)
    (hp : p.callback.names i = false) : nodeView i (fire s p) = nodeView i s := by
  cases p with
  | mk callback due =>
    cases callback with
    | updateStatistics =>
      simp [nodeView, fire, runCallback, updateStatisticsBegin, registered]
    | updateHealth =>
      simp [nodeView, fire, runCallback, updateHealthBegin, registered]
    | scaleBack =>
      simp [nodeView, fire, runCallback, scaleBackCallback, registered]
    | slideOut node =>
      have hne : node ≠ i := by simpa [names_slideOut] using hp
      simp only [nodeView, fire, runCallback, slideOutCallback, registered, List.drop_left,
        List.map_cons, List.map_nil, List.filter_append, filter_node_map_animation]
      rw [map_animation_of_ne _ _ _ _ hne (fun n hn => by simpa using (List.mem_filter.mp hn).2)]
      simp [names_removeNotification, hne]
    | removeNotification node =>
      have hne : node ≠ i := by simpa [names_removeNotification] using hp
      simp only [nodeView, fire, runCallback, removeNotificationCallback]
      split
      · split
        · simp only [registered, List.drop_length, List.map_nil, List.append_nil,
            filter_node_filter_ne _ _ _ hne, count_filter_ne _ _ _ hne]
        · simp only [registered, List.drop_length, List.map_nil, List.append_nil,
            filter_node_filter_ne _ _ _ hne, List.filter_append, List.map_append]
          simp [names_removeNotification, hne]
      · simp [registered, names_removeNotification, hne]

theorem nodeView_fire_slideOut (i : Nat) (s : Session) (due : Nat) :
    nodeView i (fire s (PendingTimeout.mk (.slideOut i) due)) =
      { elements := (nodeView i s).elements.map fun n =>
          if n.node = i then { n with animation := "slideOut 0.3s ease-in" } else n
        styles := (nodeView i s).styles
        timers := (nodeView i s).timers ++
          [PendingTimeout.mk (.removeNotification i) (s.clock + 300)]
        errors := (nodeView i s).errors } := by
  simp only [nodeView, fire, runCallback, slideOutCallback, registered, List.drop_left,
    List.map_cons, List.map_nil, List.filter_append, filter_node_map_animation]
  simp [names_removeNotification]

theorem nodeView_fire_removeNotification (i : Nat) (s : Session) (due : Nat)
    (helements : (nodeView i s).elements ≠ []) (hstyles : (nodeView i s).styles ≠ 0) :
    nodeView i (fire s (PendingTimeout.mk (.removeNotification i) due)) =
      { elements := []
        styles := 0
        timers := (nodeView i s).timers
        errors := (nodeView i s).errors } := by
  have hany : s.dashboard.dom.body.any (fun n => n.node = i) = true := by
    obtain ⟨n, hn⟩ := List.exists_mem_of_ne_nil _ helements
    have hmem := List.mem_filter.mp hn
    exact List.any_eq_true.mpr ⟨n, hmem.1, hmem.2⟩
  have hhead : s.dashboard.dom.head.contains i = true := by
    have hmem : i ∈ s.dashboard.dom.head := by
      by_contra hnot
      exact hstyles (List.count_eq_zero.mpr hnot)
    simpa using hmem
  have hgone : (s.dashboard.dom.body.filter fun n => n.node ≠ i).filter
      (fun n => n.node = i) = [] := by
    rw [List.filter_filter, List.filter_eq_nil_iff]
    intro n _
    by_cases hi : n.node = i <;> simp [hi]
  have hcount : (s.dashboard.dom.head.filter fun k => k ≠ i).count i = 0 := by
    rw [List.count_eq_zero]
    intro hmem
    simpa using (List.mem_filter.mp hmem).2
  simp only [nodeView, fire, runCallback, removeNotificationCallback, hany, if_true, hhead,
    registered, List.drop_length, List.map_nil, List.append_nil, hgone, hcount]

theorem foldl_fire_clock (l : List PendingTimeout) :
    ∀ s : Session, (l.foldl fire s).clock = s.clock := by
  induction l with
  | nil => intro s; rfl
  | cons p rest ih => intro s; rw [List.foldl_cons, ih, fire_clock]

theorem foldl_fire_created (l : List PendingTimeout) :
    ∀ s : Session, (l.foldl fire s).dashboard.dom.created = s.dashboard.dom.created := by
  induction l with
  | nil => intro s; rfl
  | cons p rest ih => intro s; rw [List.foldl_cons, ih, fire_created]

theorem nodeView_foldl_fire_other (i : Nat) (l : List PendingTimeout) :
    ∀ s : Session, (∀ p ∈ l, p.callback.names i = false) →
      nodeView i (l.foldl fire s) = nodeView i s := by
  induction l with
  | nil => intro s _; rfl
  | cons p rest ih =>
    intro s h
    rw [List.foldl_cons, ih _ fun q hq => h q (List.mem_cons_of_mem _ hq),
      nodeView_fire_other i s p (h p (List.mem_cons_self _ _))]

theorem tick_clock (s : Session) : (tick s).clock = s.clock + 1 := by
  simp only [tick, foldl_fire_clock]

theorem tick_created (s : Session) :
    (tick s).dashboard.dom.created = s.dashboard.dom.created := by
  simp only [tick, foldl_fire_created]

theorem filter_due_names (i clock : Nat) (pending : List PendingTimeout) :
    (pending.filter fun p => p.due ≤ clock).filter (fun p => p.callback.names i) =
      (pending.filter fun p => p.callback.names i).filter (fun p => p.due ≤ clock) := by
  rw [List.filter_filter, List.filter_filter]
  apply List.filter_congr
  intro p _
  exact Bool.and_comm _ _

theorem filter_rest_names (i clock : Nat) (pending : List PendingTimeout) :
    (pending.filter fun p => ¬ p.due ≤ clock).filter (fun p => p.callback.names i) =
      (pending.filter fun p => p.callback.names i).filter (fun p => ¬ p.due ≤ clock) := by
  rw [List.filter_filter, List.filter_filter]
  apply List.filter_congr
  intro p _
  exact Bool.and_comm _ _

theorem nodeView_tick_idle (i : Nat) (s : Session)
    (hidle : (nodeView i s).timers.filter (fun p => p.due ≤ s.clock + 1) = []) :
    nodeView i (tick s) = nodeView i s := by
  have hother : ∀ p ∈ s.pending.filter (fun p => p.due ≤ s.clock + 1),
      p.callback.names i = false := by
    intro p hp
    cases hnames : p.callback.names i with
    | false => rfl
    | true =>
      have hmem : p ∈ (s.pending.filter fun p => p.due ≤ s.clock + 1).filter
          (fun p => p.callback.names i) := List.mem_filter.mpr ⟨hp, hnames⟩
      rw [filter_due_names] at hmem
      have hnil : (s.pending.filter fun p => p.callback.names i).filter
          (fun p => p.due ≤ s.clock + 1) = [] := hidle
      rw [hnil] at hmem
      cases hmem
  have hrest : (s.pending.filter fun p => ¬ p.due ≤ s.clock + 1).filter
      (fun p => p.callback.names i) = s.pending.filter fun p => p.callback.names i := by
    rw [filter_rest_names, List.filter_eq_self]
    intro p hp
    have hnot := List.filter_eq_nil_iff.mp hidle p hp
    simpa using hnot
  unfold tick
  rw [nodeView_foldl_fire_other i _ _ hother]
  simp only [nodeView, hrest]

theorem nodeView_tick_due (i : Nat) (s : Session) (p : PendingTimeout)
    (htimers : (nodeView i s).timers = [p]) (hdue : p.due ≤ s.clock + 1) :
    ∃ s1 : Session, s1.clock = s.clock + 1 ∧
      nodeView i s1 =
        { elements := (nodeView i s).elements
          styles := (nodeView i s).styles
          timers := []
          errors := (nodeView i s).errors } ∧
      nodeView i (tick s) = nodeView i (fire s1 p) := by
  have htimers' : (s.pending.filter fun q => q.callback.names i) = [p] := htimers
  have hfilter : (s.pending.filter fun q => q.due ≤ s.clock + 1).filter
      (fun q => q.callback.names i) = [p] := by
    rw [filter_due_names, htimers']
    simp [hdue]
  obtain ⟨l₁, l₂, hsplit, h₁, -, h₂⟩ := List.filter_eq_cons_iff.mp hfilter
  have hrest : (s.pending.filter fun q => ¬ q.due ≤ s.clock + 1).filter
      (fun q => q.callback.names i) = [] := by
    rw [filter_rest_names, htimers']
    simp [hdue]
  refine ⟨l₁.foldl fire
    { s with
      clock := s.clock + 1
      pending := s.pending.filter fun q => ¬ q.due ≤ s.clock + 1 }, ?_, ?_, ?_⟩
  · rw [foldl_fire_clock]
  · rw [nodeView_foldl_fire_other i l₁ _ fun q hq => by simpa using h₁ q hq]
    simp only [nodeView, hrest]
  · unfold tick
    simp only [hsplit, List.foldl_append, List.foldl_cons]
    exact nodeView_foldl_fire_other i l₂ _ fun q hq => by
      simpa using List.filter_eq_nil_iff.mp h₂ q hq

theorem nodeView_tick_none (i : Nat) (s : Session) (hv : nodeView i s = NodeView.none) :
    nodeView i (tick s) = NodeView.none := by
  rw [nodeView_tick_idle i s (by rw [hv]; rfl), hv]

theorem nodeView_tick_life (s : Session) (e : NotificationElement) (born : Nat)
    (hv : nodeView e.node s = lifeView e born s.clock) :
    nodeView e.node (tick s) = lifeView e born (s.clock + 1) := by
  by_cases h1 : s.clock < born + 3000
  · have hv1 : nodeView e.node s =
        { elements := [e]
          styles := 1
          timers := [PendingTimeout.mk (.slideOut e.node) (born + 3000)]
          errors := [] } := by
      rw [hv, lifeView, if_pos h1]
    by_cases h1' : s.clock + 1 < born + 3000
    · rw [nodeView_tick_idle e.node s (by rw [hv1]; simp; omega), hv1, lifeView, if_pos h1']
    · obtain ⟨s1, hclock, hs1, htick⟩ := nodeView_tick_due e.node s
        (PendingTimeout.mk (.slideOut e.node) (born + 3000)) (by rw [hv1])
        (by show born + 3000 ≤ s.clock + 1; omega)
      rw [htick, nodeView_fire_slideOut, hs1, hv1, hclock, lifeView, if_neg h1',
        if_pos (by omega)]
      have hdue : s.clock + 1 + 300 = born + 3000 + 300 := by omega
      simp [hdue]
  · by_cases h2 : s.clock < born + 3000 + 300
    · have hv2 : nodeView e.node s =
          { elements := [{ e with animation := "slideOut 0.3s ease-in" }]
            styles := 1
            timers := [PendingTimeout.mk (.removeNotification e.node) (born + 3000 + 300)]
            errors := [] } := by
        rw [hv, lifeView, if_neg h1, if_pos h2]
      by_cases h2' : s.clock + 1 < born + 3000 + 300
      · rw [nodeView_tick_idle e.node s (by rw [hv2]; simp; omega), hv2, lifeView,
          if_neg (by omega), if_pos h2']
      · obtain ⟨s1, _, hs1, htick⟩ := nodeView_tick_due e.node s
          (PendingTimeout.mk (.removeNotification e.node) (born + 3000 + 300)) (by rw [hv2])
          (by show born + 3000 + 300 ≤ s.clock + 1; omega)
        rw [htick, nodeView_fire_removeNotification e.node s1 _ (by rw [hs1, hv2]; simp)
          (by rw [hs1, hv2]; simp), hs1, hv2, lifeView, if_neg (by omega), if_neg h2']
        rfl
    · have hv3 : nodeView e.node s = NodeView.none := by
        rw [hv, lifeView, if_neg h1, if_neg h2]
      rw [nodeView_tick_none e.node s hv3, lifeView, if_neg (by omega), if_neg (by omega)]

theorem advance_succ (s : Session) (ms : Nat) : advance s (ms + 1) = tick (advance s ms) :=
  Function.iterate_succ_apply' tick ms s

theorem advance_clock (s : Session) (ms : Nat) : (advance s ms).clock = s.clock + ms := by
  induction ms with
  | zero => rfl
  | succ n ih => rw [advance_succ, tick_clock, ih, Nat.add_assoc]

theorem advance_created (s : Session) (ms : Nat) :
    (advance s ms).dashboard.dom.created = s.dashboard.dom.created := by
  induction ms with
  | zero => rfl
  | succ n ih => rw [advance_succ, tick_created, ih]

theorem nodeView_advance_none (i : Nat) (s : Session) (ms : Nat)
    (hv : nodeView i s = NodeView.none) : nodeView i (advance s ms) = NodeView.none := by
  induction ms with
  | zero => exact hv
  | succ n ih => rw [advance_succ, nodeView_tick_none i _ ih]

theorem nodeView_advance_life (s : Session) (e : NotificationElement) (born ms : Nat)
    (hv : nodeView e.node s = lifeView e born s.clock) :
    nodeView e.node (advance s ms) = lifeView e born (s.clock + ms) := by
  induction ms with
  | zero => exact hv
  | succ n ih =>
    rw [advance_succ, nodeView_tick_life _ e born (by rw [advance_clock]; exact ih),
      advance_clock, Nat.add_assoc]

theorem notify_clock (s : Session) (message : String) (type : Level) :
    (notify s message type).clock = s.clock := rfl

theorem notify_created (s : Session) (message : String) (type : Level) :
    (notify s message type).dashboard.dom.created = s.dashboard.dom.created + 1 := rfl

theorem nodeView_notify_other (i : Nat) (s : Session) (message : String) (type : Level)
    (hne : s.dashboard.dom.created ≠ i) :
    nodeView i (notify s message type) = nodeView i s := by
  simp only [nodeView, notify, showNotification, registered, List.drop_left, List.map_cons,
    List.map_nil, List.filter_append, List.count_append]
  simp [names_slideOut, hne, List.filter_cons, List.count_cons]

theorem nodeView_notify_self (s : Session) (message : String) (type : Level)
    (hv : nodeView s.dashboard.dom.created s = NodeView.none) :
    nodeView s.dashboard.dom.created (notify s message type) =
      lifeView (createdElement s.dashboard.dom.created message type) s.clock s.clock := by
  have helements : (s.dashboard.dom.body.filter fun n => n.node = s.dashboard.dom.created)
      = [] := congrArg NodeView.elements hv
  have hstyles : s.dashboard.dom.head.count s.dashboard.dom.created = 0 :=
    congrArg NodeView.styles hv
  have htimers : (s.pending.filter fun p => p.callback.names s.dashboard.dom.created) = [] :=
    congrArg NodeView.timers hv
  have herrors : ((s.uncaught.filter fun e => e.1.names s.dashboard.dom.created).map Prod.snd)
      = [] := congrArg NodeView.errors hv
  rw [lifeView, if_pos (by omega)]
  simp only [nodeView, notify, showNotification, registered, List.drop_left, List.map_cons,
    List.map_nil, List.filter_append, List.count_append, helements, hstyles, htimers, herrors]
  simp [names_slideOut, createdElement, List.filter_cons, List.count_cons]

theorem callTime_append_left (start : Nat) (l : List Call) (c : Call) (k : Nat)
    (hk : k < l.length) : callTime start (l ++ [c]) k = callTime start l k := by
  unfold callTime
  rw [List.take_append_of_le_length (by omega)]

theorem callTime_append_last (start : Nat) (l : List Call) (c : Call) :
    callTime start (l ++ [c]) l.length = start + (l.map fun c => c.wait).sum + c.wait := by
  unfold callTime
  rw [List.take_of_length_le (by simp)]
  simp [Nat.add_assoc]

theorem runCalls_append (s : Session) (l : List Call) (c : Call) :
    runCalls s (l ++ [c]) = notify (advance (runCalls s l) c.wait) c.message c.type := by
  simp [runCalls, List.foldl_append]

theorem runCalls_clock (s : Session) (calls : List Call) :
    (runCalls s calls).clock = s.clock + (calls.map fun c => c.wait).sum := by
  induction calls using List.reverseRecOn with
  | nil => rfl
  | append_singleton l c ih =>
    rw [runCalls_append, notify_clock, advance_clock, ih]
    simp [Nat.add_assoc]

theorem tracks_runCalls (s : Session) (calls : List Call)
    (hfresh : ∀ i : Nat, s.dashboard.dom.created ≤ i → nodeView i s = NodeView.none) :
    Tracks (runCalls s calls) s.dashboard.dom.created s.clock calls := by
  induction calls using List.reverseRecOn with
  | nil =>
    exact ⟨rfl, fun k hk => absurd hk (Nat.not_lt_zero k), fun i hi => hfresh i hi⟩
  | append_singleton l c ih =>
    obtain ⟨hcreated, hlife, hnone⟩ := ih
    have hcreated' : (advance (runCalls s l) c.wait).dashboard.dom.created =
        s.dashboard.dom.created + l.length := by
      rw [advance_created, hcreated]
    rw [runCalls_append]
    refine ⟨?_, ?_, ?_⟩
    · rw [notify_created, hcreated', List.length_append]
      rfl
    · intro k hk
      rw [notify_clock, advance_clock, runCalls_clock]
      by_cases hlt : k < l.length
      · rw [nodeView_notify_other _ _ _ _ (by rw [hcreated']; omega),
          callTime_append_left _ _ _ _ hlt, List.getElem_append_left hlt]
        have h := nodeView_advance_life (runCalls s l)
          (createdElement (s.dashboard.dom.created + k) l[k].message l[k].type)
          (callTime s.clock l k) c.wait (hlife k hlt)
        rw [runCalls_clock] at h
        exact h
      · have hk' : k = l.length := by
          rw [List.length_append] at hk
          simp only [List.length_singleton] at hk
          omega
        subst hk'
        have hself := nodeView_notify_self (advance (runCalls s l) c.wait) c.message c.type
          (by
            rw [hcreated']
            exact nodeView_advance_none _ _ _ (hnone _ (Nat.le_refl _)))
        rw [hcreated', advance_clock, runCalls_clock] at hself
        rw [hself, callTime_append_last]
        simp
    · intro i hi
      rw [List.length_append] at hi
      simp only [List.length_singleton] at hi
      rw [nodeView_notify_other _ _ _ _ (by rw [hcreated']; omega)]
      exact nodeView_advance_none _ _ _ (hnone i (by omega))

theorem lifeView_elements_length (e : NotificationElement) (born clock : Nat) :
    (lifeView e born clock).elements.length = if clock < born + 3300 then 1 else 0 := by
  unfold lifeView
  by_cases h1 : clock < born + 3000
  · rw [if_pos h1, if_pos (by omega)]
    rfl
  · by_cases h2 : clock < born + 3000 + 300
    · rw [if_neg h1, if_pos h2, if_pos (by omega)]
      rfl
    · rw [if_neg h1, if_neg h2, if_neg (by omega)]
      rfl

theorem lifeView_elements_same (e : NotificationElement) (born clock : Nat) :
    ∀ n ∈ (lifeView e born clock).elements,
      n.node = e.node ∧ n.message = e.message ∧ n.type = e.type := by
  intro n hn
  unfold lifeView at hn
  split at hn
  · simp only [List.mem_singleton] at hn
    subst hn
    exact ⟨rfl, rfl, rfl⟩
  · split at hn
    · simp only [List.mem_singleton] at hn
      subst hn
      exact ⟨rfl, rfl, rfl⟩
    · cases hn

theorem lifeView_errors (e : NotificationElement) (born clock : Nat) :
    (lifeView e born clock).errors = [] := by
  unfold lifeView
  split
  · rfl
  · split <;> rfl

theorem lifeView_done (e : NotificationElement) (born clock : Nat)
    (hdone : born + 3300 ≤ clock) : lifeView e born clock = NodeView.none := by
  unfold lifeView
  rw [if_neg (by omega), if_neg (by omega)]

/-- C11: in virtual time, for every sequence of `showNotification` calls made after arbitrary
waits in a session that holds nothing of the notifications to come, and at every later time:
the notification of call `k` is what the session holds under its own number, it is in the body
exactly while the clock is less than 3000 + 300 = 3300 ms past the time of its call, with the
text and level of that call, and from then on nothing of it is left: no element, no style, no
pending timeout; none of its callbacks ever threw, so it was not removed a second time. This
depends neither on how many other notifications are live nor on their texts: right after its
call a notification is in the body, a timeout of another notification leaves it as it is, and so
does a later call. -/
theorem showNotification_removed_after_3300 (s : Session) (calls : List Call) (ms : Nat)
    (hfresh : ∀ i : Nat, s.dashboard.dom.created ≤ i → nodeView i s = NodeView.none) :
    (advance (runCalls s calls) ms).clock = s.clock + (calls.map fun c => c.wait).sum + ms ∧
    (∀ (k : Nat) (hk : k < calls.length),
      callTime s.clock calls k ≤ (advance (runCalls s calls) ms).clock ∧
      nodeView (s.dashboard.dom.created + k) (advance (runCalls s calls) ms) =
        lifeView (createdElement (s.dashboard.dom.created + k) calls[k].message calls[k].type)
          (callTime s.clock calls k) (advance (runCalls s calls) ms).clock ∧
      ((advance (runCalls s calls) ms).dashboard.dom.body.filter
          fun n => n.node = s.dashboard.dom.created + k).length =
        (if (advance (runCalls s calls) ms).clock < callTime s.clock calls k + 3300 then 1
         else 0) ∧
      (∀ n ∈ (advance (runCalls s calls) ms).dashboard.dom.body,
        n.node = s.dashboard.dom.created + k →
          n.message = calls[k].message ∧ n.type = calls[k].type) ∧
      (callTime s.clock calls k + 3300 ≤ (advance (runCalls s calls) ms).clock →
        nodeView (s.dashboard.dom.created + k) (advance (runCalls s calls) ms) =
          NodeView.none) ∧
      (nodeView (s.dashboard.dom.created + k) (advance (runCalls s calls) ms)).errors = []) ∧
    (∀ (l : List Call) (c : Call),
      (nodeView (s.dashboard.dom.created + l.length) (runCalls s (l ++ [c]))).elements =
        [createdElement (s.dashboard.dom.created + l.length) c.message c.type]) ∧
    (∀ (i : Nat) (t : Session) (p : PendingTimeout), p.callback.names i = false →
      nodeView i (fire t p) = nodeView i t) ∧
    (∀ (i : Nat) (t : Session) (message : String) (type : Level),
      t.dashboard.dom.created ≠ i → nodeView i (notify t message type) = nodeView i t) := by
  have hclock : (advance (runCalls s calls) ms).clock =
      s.clock + (calls.map fun c => c.wait).sum + ms := by
    rw [advance_clock, runCalls_clock]
  have hview : ∀ (l : List Call) (d k : Nat) (hk : k < l.length),
      nodeView (s.dashboard.dom.created + k) (advance (runCalls s l) d) =
        lifeView (createdElement (s.dashboard.dom.created + k) l[k].message l[k].type)
          (callTime s.clock l k) (advance (runCalls s l) d).clock := by
    intro l d k hk
    rw [advance_clock]
    exact nodeView_advance_life (runCalls s l)
      (createdElement (s.dashboard.dom.created + k) l[k].message l[k].type)
      (callTime s.clock l k) d ((tracks_runCalls s l hfresh).2.1 k hk)
  refine ⟨hclock, ?_, ?_, nodeView_fire_other, nodeView_notify_other⟩
  · intro k hk
    have hborn : callTime s.clock calls k ≤ (advance (runCalls s calls) ms).clock := by
      rw [hclock]
      unfold callTime
      have hsum : ((calls.take (k + 1)).map fun c => c.wait).sum ≤
          (calls.map fun c => c.wait).sum := by
        conv => rhs; rw [← List.take_append_drop (k + 1) calls]
        rw [List.map_append, List.sum_append]
        exact Nat.le_add_right _ _
      omega
    have hv := hview calls ms k hk
    have helements : ((advance (runCalls s calls) ms).dashboard.dom.body.filter
        fun n => n.node = s.dashboard.dom.created + k) =
        (lifeView (createdElement (s.dashboard.dom.created + k) calls[k].message
          calls[k].type) (callTime s.clock calls k)
          (advance (runCalls s calls) ms).clock).elements := congrArg NodeView.elements hv
    refine ⟨hborn, hv, ?_, ?_, ?_, ?_⟩
    · rw [helements, lifeView_elements_length]
    · intro n hn hnode
      have hmem : n ∈ (advance (runCalls s calls) ms).dashboard.dom.body.filter
          fun n => n.node = s.dashboard.dom.created + k :=
        List.mem_filter.mpr ⟨hn, by simpa using hnode⟩
      rw [helements] at hmem
      exact (lifeView_elements_same _ _ _ n hmem).2
    · intro hdone
      rw [hv, lifeView_done _ _ _ hdone]
    · rw [hv, lifeView_errors]
  · intro l c
    have hv := hview (l ++ [c]) 0 l.length (by simp)
    have hnow : (advance (runCalls s (l ++ [c])) 0).clock = callTime s.clock (l ++ [c]) l.length := by
      rw [advance_clock, runCalls_clock, callTime_append_last]
      simp [Nat.add_assoc]
    rw [hnow] at hv
    have hadv : advance (runCalls s (l ++ [c])) 0 = runCalls s (l ++ [c]) := rfl
    rw [hadv] at hv
    rw [hv, lifeView, if_pos (by omega)]
    simp

/-- C11 at two calls with the same text, 5 ms and 15 ms after the start of a new dashboard, read
3290 ms after the second call: the first notification, 3300 ms old, is gone; the second, 3290 ms
old, is still in the body, sliding out. -/
theorem showNotification_removed_after_3300_witness :
    (∀ i : Nat, sampleSession.dashboard.dom.created ≤ i →
      nodeView i sampleSession = NodeView.none) ∧
    (advance (runCalls sampleSession sampleCalls) 3290).clock = 3305 ∧
    nodeView 0 (advance (runCalls sampleSession sampleCalls) 3290) = NodeView.none ∧
    ((advance (runCalls sampleSession sampleCalls) 3290).dashboard.dom.body.filter
      fun n => n.node = 1).length = 1 :=
  have hfresh : ∀ i : Nat, sampleSession.dashboard.dom.created ≤ i →
      nodeView i sampleSession = NodeView.none := fun _ _ => rfl
  have h := showNotification_removed_after_3300 sampleSession sampleCalls 3290 hfresh
  ⟨hfresh, h.1,
    (h.2.1 0 (by decide)).2.2.2.2.1 (by rw [h.1]; decide),
    (h.2.1 1 (by decide)).2.2.1.trans (by rw [h.1]; decide)⟩

end SequenceDashboard
